import Mathlib

/-!
# Verification of the neosound lineage store and reconstruction engine

A shallow embedding of the Python sources `neosound/sound_store.py`,
`neosound/sound_transforms.py`, `neosound/sound_manager.py`,
`neosound/annotations.py` and the store-relevant parts of
`neosound/sound.py`.

Modelling conventions:
* Python values flowing through the store are modelled by the inductive
  `PyVal`; Python dictionaries by insertion-ordered association lists
  (`PyDict`) with Python `dict.update` semantics.
* A Python call either returns a value or raises; this is modelled by
  `PRes`.  Mutating calls return the (possibly partially) mutated state
  *together* with the outcome, because a raised exception in Python leaves
  all previously executed writes in place.
* Recursive Python functions are modelled with an explicit depth budget
  (`fuel`) mirroring the CPython recursion limit: a result of `none` means
  the call exceeded every depth bound (in CPython: `RecursionError`),
  `some r` means the call returned or raised `r` within the budget.
  All such functions are structurally recursive on the budget so that the
  kernel can evaluate them on concrete inputs.
* Python floats appearing in the store are modelled by rationals: the
  modelled code only copies and compares them, it never performs
  float-specific arithmetic on them.
-/

namespace Neosound

/-- Exceptions raised by the modelled Python code. -/
inductive PyErr where
  /-- Python `KeyError` (dict lookup misses). -/
  | keyError (key : String)
  /-- Python `AttributeError` (attribute lookup misses). -/
  | attributeError (name : String)
  /-- Python `TypeError` (arity mismatch, bad operand type, ...). -/
  | typeError (msg : String)
  /-- Python `AssertionError` (failed `assert`). -/
  | assertionError (msg : String)
  /-- Python `NameError` / `UnboundLocalError` (unbound identifier). -/
  | nameError (name : String)
  /-- Python `ValueError`. -/
  | valueError (msg : String)
  /-- Python `IOError`. -/
  | ioError (msg : String)
  /-- Python `IndexError`. -/
  | indexError (msg : String)
  /-- Execution left the modelled core (file I/O, DSP library calls).
  No theorem below depends on a code path producing this value. -/
  | externalCall (what : String)
  /-- CPython `RecursionError` for the value-recursion helpers. -/
  | recursionError
  deriving DecidableEq

/-- Outcome of a Python call: a value or a raised exception. -/
inductive PRes (α : Type) where
  | ok (a : α)
  | err (e : PyErr)
  deriving DecidableEq

namespace PRes

def map {α β : Type} (f : α → β) : PRes α → PRes β
  | .ok a => .ok (f a)
  | .err e => .err e

def isOk {α : Type} : PRes α → Bool
  | .ok _ => true
  | .err _ => false

end PRes

/-- The transform classes defined in `neosound/sound_transforms.py`.
`metadata["type"]` holds one of these classes in memory; the store
serialises it to the class name and resolves it back with
`getattr(sound_transforms, name)`. -/
inductive TKind where
  | SoundTransform
  | InitTransform
  | LoadTransform
  | CreateTransform
  | MonoTransform
  | FilterTransform
  | RampTransform
  | ResampleTransform
  | PadTransform
  | ClipTransform
  | SliceTransform
  | MultiplyTransform
  | InPlaceMultiplyTransform
  | AddTransform
  | SetTransform
  | ComponentTransform
  deriving DecidableEq

/-- `cls.__name__` for each transform class. -/
def TKind.tname : TKind → String
  | .SoundTransform => "SoundTransform"
  | .InitTransform => "InitTransform"
  | .LoadTransform => "LoadTransform"
  | .CreateTransform => "CreateTransform"
  | .MonoTransform => "MonoTransform"
  | .FilterTransform => "FilterTransform"
  | .RampTransform => "RampTransform"
  | .ResampleTransform => "ResampleTransform"
  | .PadTransform => "PadTransform"
  | .ClipTransform => "ClipTransform"
  | .SliceTransform => "SliceTransform"
  | .MultiplyTransform => "MultiplyTransform"
  | .InPlaceMultiplyTransform => "InPlaceMultiplyTransform"
  | .AddTransform => "AddTransform"
  | .SetTransform => "SetTransform"
  | .ComponentTransform => "ComponentTransform"

/-- `getattr(sound_transforms, name)` restricted to the transform classes:
the class whose `__name__` is `name`, if any. -/
def tkindOfName (name : String) : Option TKind :=
  if name = "SoundTransform" then some .SoundTransform
  else if name = "InitTransform" then some .InitTransform
  else if name = "LoadTransform" then some .LoadTransform
  else if name = "CreateTransform" then some .CreateTransform
  else if name = "MonoTransform" then some .MonoTransform
  else if name = "FilterTransform" then some .FilterTransform
  else if name = "RampTransform" then some .RampTransform
  else if name = "ResampleTransform" then some .ResampleTransform
  else if name = "PadTransform" then some .PadTransform
  else if name = "ClipTransform" then some .ClipTransform
  else if name = "SliceTransform" then some .SliceTransform
  else if name = "MultiplyTransform" then some .MultiplyTransform
  else if name = "InPlaceMultiplyTransform" then some .InPlaceMultiplyTransform
  else if name = "AddTransform" then some .AddTransform
  else if name = "SetTransform" then some .SetTransform
  else if name = "ComponentTransform" then some .ComponentTransform
  else none

/-- Python values stored and passed around by the modelled code. -/
inductive PyVal where
  /-- Python `str`. -/
  | str (s : String)
  /-- Python `int`. -/
  | intv (n : Int)
  /-- Python `float` (only copied and compared by the modelled code). -/
  | floatv (q : ℚ)
  /-- Python `bool`. -/
  | boolv (b : Bool)
  /-- Python `None`. -/
  | nonev
  /-- Python `list`. -/
  | list (l : List PyVal)
  /-- `numpy.ndarray` (distinct from `list` for `type(a) == type(b)`). -/
  | arr (l : List PyVal)
  /-- Python `dict` with string keys, in insertion order. -/
  | dict (l : List (String × PyVal))
  /-- A transform class object (the in-memory `metadata["type"]`). -/
  | ttype (k : TKind)

mutual

/-- Boolean structural equality on `PyVal`. -/
def PyVal.beq : PyVal → PyVal → Bool
  | .str a, .str b => a == b
  | .intv a, .intv b => a == b
  | .floatv a, .floatv b => a == b
  | .boolv a, .boolv b => a == b
  | .nonev, .nonev => true
  | .list a, .list b => PyVal.beqL a b
  | .arr a, .arr b => PyVal.beqL a b
  | .dict a, .dict b => PyVal.beqD a b
  | .ttype a, .ttype b => a == b
  | _, _ => false

/-- `PyVal.beq` lifted to lists. -/
def PyVal.beqL : List PyVal → List PyVal → Bool
  | [], [] => true
  | a :: as, b :: bs => PyVal.beq a b && PyVal.beqL as bs
  | _, _ => false

/-- `PyVal.beq` lifted to association lists. -/
def PyVal.beqD : List (String × PyVal) → List (String × PyVal) → Bool
  | [], [] => true
  | (ka, a) :: as, (kb, b) :: bs => ka == kb && PyVal.beq a b && PyVal.beqD as bs
  | _, _ => false

end

mutual

theorem PyVal.beq_eq : ∀ a b : PyVal, PyVal.beq a b = true → a = b
  | .str a, .str b, h => by simp [PyVal.beq] at h; simp [h]
  | .intv a, .intv b, h => by simp [PyVal.beq] at h; simp [h]
  | .floatv a, .floatv b, h => by simp [PyVal.beq] at h; simp [h]
  | .boolv a, .boolv b, h => by simp [PyVal.beq] at h; simp [h]
  | .nonev, .nonev, _ => rfl
  | .list a, .list b, h => by
      simp only [PyVal.beq] at h; exact congrArg PyVal.list (PyVal.beqL_eq a b h)
  | .arr a, .arr b, h => by
      simp only [PyVal.beq] at h; exact congrArg PyVal.arr (PyVal.beqL_eq a b h)
  | .dict a, .dict b, h => by
      simp only [PyVal.beq] at h; exact congrArg PyVal.dict (PyVal.beqD_eq a b h)
  | .ttype a, .ttype b, h => by simp [PyVal.beq] at h; simp [h]

theorem PyVal.beqL_eq : ∀ a b : List PyVal, PyVal.beqL a b = true → a = b
  | [], [], _ => rfl
  | a :: as, b :: bs, h => by
      simp only [PyVal.beqL, Bool.and_eq_true] at h
      rw [PyVal.beq_eq a b h.1, PyVal.beqL_eq as bs h.2]

theorem PyVal.beqD_eq : ∀ a b : List (String × PyVal), PyVal.beqD a b = true → a = b
  | [], [], _ => rfl
  | (ka, a) :: as, (kb, b) :: bs, h => by
      simp only [PyVal.beqD, Bool.and_eq_true, beq_iff_eq] at h
      rw [h.1.1, PyVal.beq_eq a b h.1.2, PyVal.beqD_eq as bs h.2]

end

mutual

theorem PyVal.beq_refl : ∀ a : PyVal, PyVal.beq a a = true
  | .str a => by simp [PyVal.beq]
  | .intv a => by simp [PyVal.beq]
  | .floatv a => by simp [PyVal.beq]
  | .boolv a => by simp [PyVal.beq]
  | .nonev => rfl
  | .list a => PyVal.beqL_refl a
  | .arr a => PyVal.beqL_refl a
  | .dict a => PyVal.beqD_refl a
  | .ttype a => by simp [PyVal.beq]

theorem PyVal.beqL_refl : ∀ a : List PyVal, PyVal.beqL a a = true
  | [] => rfl
  | a :: as => by
      simp only [PyVal.beqL, Bool.and_eq_true]
      exact ⟨PyVal.beq_refl a, PyVal.beqL_refl as⟩

theorem PyVal.beqD_refl : ∀ a : List (String × PyVal), PyVal.beqD a a = true
  | [] => rfl
  | (ka, a) :: as => by
      simp [PyVal.beqD, PyVal.beq_refl a, PyVal.beqD_refl as]

end

instance : DecidableEq PyVal := fun a b =>
  if h : PyVal.beq a b = true then .isTrue (PyVal.beq_eq a b h)
  else .isFalse (fun he => h (he ▸ PyVal.beq_refl a))

/-- A Python dict with string keys, in insertion order. -/
abbrev PyDict := List (String × PyVal)

/-- `d[key]` as an option (first binding wins; the modelled code never
builds duplicate keys). -/
def alookup (d : PyDict) (key : String) : Option PyVal :=
  match d with
  | [] => none
  | (k, v) :: rest => if k = key then some v else alookup rest key

/-- `key in d`. -/
def dcontains (d : PyDict) (key : String) : Bool :=
  (alookup d key).isSome

/-- `d[key] = v`: replace the existing binding in place, else append. -/
def dset (d : PyDict) (key : String) (v : PyVal) : PyDict :=
  match d with
  | [] => [(key, v)]
  | (k, w) :: rest => if k = key then (k, v) :: rest else (k, w) :: dset rest key v

/-- `d.update(kw)`: apply `dset` for each binding of `kw` in order. -/
def dupdate (d : PyDict) (kw : PyDict) : PyDict :=
  match kw with
  | [] => d
  | (k, v) :: rest => dupdate (dset d k v) rest

/-- `type(v).__name__`, as far as the merge policy needs it. -/
def pyType : PyVal → String
  | .str _ => "str"
  | .intv _ => "int"
  | .floatv _ => "float"
  | .boolv _ => "bool"
  | .nonev => "NoneType"
  | .list _ => "list"
  | .arr _ => "ndarray"
  | .dict _ => "dict"
  | .ttype _ => "type"

/-! ## `sound_store.py`: `DictStore`

`DictStore` keeps one Python dict per identity, holding the annotations,
the `transform_`-prefixed metadata entries, and the optional `waveform`
buffer, all in the same namespace. -/

/-- `DictStore`: `self.data` maps identity → per-identity dict;
`self.read_only` is the flag consulted by the `@writes` decorator. -/
structure DictStore where
  data : List (String × PyDict)
  read_only : Bool
  deriving DecidableEq

/-- Association-list lookup on the raw map. -/
def dsRecord : List (String × PyDict) → String → Option PyDict
  | [], _ => none
  | (k, r) :: rest, id_ => if k = id_ then some r else dsRecord rest id_

/-- `self.data[id_]` as an option. -/
def DictStore.record (s : DictStore) (id_ : String) : Option PyDict :=
  dsRecord s.data id_

/-- `self.data.setdefault(id_, dict()).update(kwargs)` on the raw map. -/
def dsSetUpdate (data : List (String × PyDict)) (id_ : String) (kwargs : PyDict) :
    List (String × PyDict) :=
  match data with
  | [] => [(id_, dupdate [] kwargs)]
  | (k, r) :: rest =>
      if k = id_ then (k, dupdate r kwargs) :: rest
      else (k, r) :: dsSetUpdate rest id_ kwargs

/-- `getattr(sound_transforms, val)` as performed on a stored `type` tag. -/
def resolveType : PyVal → PRes PyVal
  | .str s =>
      match tkindOfName s with
      | some k => .ok (.ttype k)
      | none => .err (.attributeError s)
  | _ => .err (.typeError "attribute name must be string")

/-- Body of `DictStore.get_metadata`: walk the per-identity dict, keep the
`transform_`-prefixed keys with the prefix stripped (the source uses
`key.split("transform_")[1]`, which agrees with dropping the prefix for
the single-occurrence keys the store writes), and resolve the `type` tag
back into a transform class. -/
def metaOfRecord : PyDict → PRes PyDict
  | [] => .ok []
  | (key, val) :: rest =>
      if key.take 10 = "transform_" then
        let kk := key.drop 10
        match (if kk = "type" then resolveType val else .ok val) with
        | .err e => .err e
        | .ok v => (metaOfRecord rest).map (fun m => (kk, v) :: m)
      else metaOfRecord rest

/-- `DictStore.get_annotations`: all keys of `self.data[id_]` that are not
`transform_`-prefixed and not `waveform`.  An identity that was never
stored raises `KeyError` (the source indexes `self.data[id_]` directly). -/
def DictStore.get_annotations (s : DictStore) (id_ : String) : PRes PyDict :=
  match s.record id_ with
  | none => .err (.keyError id_)
  | some record =>
      .ok (record.filter fun kv => !((kv.1.take 10 == "transform_") || (kv.1 == "waveform")))

/-- `DictStore.get_metadata`; `KeyError` for an identity never stored. -/
def DictStore.get_metadata (s : DictStore) (id_ : String) : PRes PyDict :=
  match s.record id_ with
  | none => .err (.keyError id_)
  | some record => metaOfRecord record

/-- A Python call of `get_metadata` with extra positional arguments, as
`SoundTransform._update_children` performs: `DictStore.get_metadata` is
declared as `def get_metadata(self, id_)` only, so any extra argument
raises `TypeError` at call time. -/
def DictStore.get_metadata_call (s : DictStore) (id_ : String) (extraArgs : List PyVal) :
    PRes PyDict :=
  match extraArgs with
  | [] => s.get_metadata id_
  | _ => .err (.typeError "get_metadata() takes exactly 2 arguments")

/-- `DictStore.get_data`: the stored `waveform` buffer, or `None` when the
identity exists without data; `KeyError` for an identity never stored. -/
def DictStore.get_data (s : DictStore) (id_ : String) : PRes (Option PyVal) :=
  match s.record id_ with
  | none => .err (.keyError id_)
  | some record => .ok (alookup record "waveform")

/-- `DictStore.store_annotations` behind the `@writes` decorator: on a
read-only store the decorator returns `False` without running the body. -/
def DictStore.store_annotations (s : DictStore) (id_ : String) (kwargs : PyDict) :
    DictStore × PRes Bool :=
  if s.read_only then (s, .ok false)
  else ({ s with data := dsSetUpdate s.data id_ kwargs }, .ok true)

/-- `DictStore.store_metadata` behind `@writes`: converts an in-memory
`type` class to its `__name__`, prefixes every key with `transform_`, and
merges the result into the per-identity dict. -/
def DictStore.store_metadata (s : DictStore) (id_ : String) (kwargs : PyDict) :
    DictStore × PRes Bool :=
  if s.read_only then (s, .ok false)
  else
    match
      (match alookup kwargs "type" with
       | none => PRes.ok kwargs
       | some (.ttype k) => PRes.ok (dset kwargs "type" (.str k.tname))
       | some _ => PRes.err (.attributeError "__name__")) with
    | .err e => (s, .err e)
    | .ok kw =>
        let metadata := kw.map (fun kv => ("transform_" ++ kv.1, kv.2))
        ({ s with data := dsSetUpdate s.data id_ metadata }, .ok true)

/-- `DictStore.store_data` behind `@writes`. -/
def DictStore.store_data (s : DictStore) (id_ : String) (d : PyVal) :
    DictStore × PRes Bool :=
  if s.read_only then (s, .ok false)
  else ({ s with data := dsSetUpdate s.data id_ [("waveform", d)] }, .ok true)

/-- One record matches the exact-match kwargs of `filter_ids`. -/
def dmatch (record : PyDict) (kwargs : PyDict) : Bool :=
  kwargs.all fun kv =>
    match alookup record kv.1 with
    | some v => v == kv.2
    | none => false

/-- Scan loop of `DictStore.filter_ids`, with the `break` once
`len(result_ids) == num_matches`. -/
def dsFilterGo (kwargs : PyDict) (numMatches : Option Nat) :
    List (String × PyDict) → Nat → List String
  | [], _ => []
  | (name, record) :: rest, count =>
      if dmatch record kwargs then
        if numMatches = some (count + 1) then [name]
        else name :: dsFilterGo kwargs numMatches rest (count + 1)
      else dsFilterGo kwargs numMatches rest count

/-- `DictStore.filter_ids(num_matches=None, **kwargs)`. -/
def DictStore.filter_ids (s : DictStore) (numMatches : Option Nat) (kwargs : PyDict) :
    List String :=
  dsFilterGo kwargs numMatches s.data 0

/-- `DictStore.list_ids`. -/
def DictStore.list_ids (s : DictStore) : List String := s.data.map Prod.fst

/-! ## `sound_store.py`: `HDF5Store` and `PandasStore`

The HDF5 file is modelled as a list of named groups, each carrying
attributes and named datasets.  Every method opens the file for the
duration of the call: read methods with mode `"r"`, write methods with
mode `"a"`.  The HDF5 library enforces the file mode: creating a group
through a handle opened `"r"` raises instead of mutating the file. -/

/-- One HDF5 group: its attributes and its datasets. -/
structure H5Group where
  attrs : PyDict
  dsets : PyDict
  deriving DecidableEq

/-- An HDF5 file: named groups in creation order. -/
abbrev H5File := List (String × H5Group)

/-- Group lookup in a file. -/
def h5Find (f : H5File) (g : String) : Option H5Group :=
  match f with
  | [] => none
  | (k, grp) :: rest => if k = g then some grp else h5Find rest g

/-- Replace a named group. -/
def h5Set (f : H5File) (g : String) (grp : H5Group) : H5File :=
  match f with
  | [] => [(g, grp)]
  | (k, old) :: rest => if k = g then (k, grp) :: rest else (k, old) :: h5Set rest g grp

/-- `HDF5Store`: the persisted file plus the store's read-only flag. -/
structure HStore where
  file : H5File
  read_only : Bool
  deriving DecidableEq

/-- `HDF5Store._get_group` inside a file handle opened with mode `"a"`
(`canWrite = true`) or `"r"` (`canWrite = false`): an existing group is
returned; for a missing group, a read-only store yields `False`
(modelled `none`), and otherwise `f.create_group` is attempted, which the
HDF5 library refuses on a handle opened `"r"`. -/
def h5GetGroup (canWrite : Bool) (ro : Bool) (f : H5File) (g : String) :
    H5File × PRes (Option H5Group) :=
  match h5Find f g with
  | some grp => (f, .ok (some grp))
  | none =>
      if ro then (f, .ok none)
      else if canWrite then (f ++ [(g, ⟨[], []⟩)], .ok (some ⟨[], []⟩))
      else (f, .err (.valueError "create_group: file opened read-only"))

/-- `HDF5Store.get_annotations`: opens the file `"r"`, asks `_get_group`,
and either filters the non-`transform_` attributes or raises `KeyError`
(when `_get_group` returned `False` on a read-only store). -/
def HStore.get_annotations (s : HStore) (id_ : String) : HStore × PRes PyDict :=
  let (f, r) := h5GetGroup false s.read_only s.file id_
  match r with
  | .err e => ({ s with file := f }, .err e)
  | .ok none => ({ s with file := f }, .err (.keyError id_))
  | .ok (some g) =>
      ({ s with file := f },
       .ok (g.attrs.filter fun kv => !(kv.1.take 10 == "transform_")))

/-- Body of `HDF5Store.get_metadata` on the group's attributes: strip the
`transform_` prefix, resolve the `type` tag, and `tolist()` the
`children`/`parents` arrays. -/
def h5MetaOfAttrs : PyDict → PRes PyDict
  | [] => .ok []
  | (key, val) :: rest =>
      if key.take 10 = "transform_" then
        let kk := key.drop 10
        match
          (if kk = "type" then resolveType val
           else if kk = "children" ∨ kk = "parents" then
             match val with
             | .arr l => PRes.ok (.list l)
             | v => PRes.ok v
           else PRes.ok val) with
        | .err e => .err e
        | .ok v => (h5MetaOfAttrs rest).map (fun m => (kk, v) :: m)
      else h5MetaOfAttrs rest

/-- `HDF5Store.get_metadata` (file opened `"r"`). -/
def HStore.get_metadata (s : HStore) (id_ : String) : HStore × PRes PyDict :=
  let (f, r) := h5GetGroup false s.read_only s.file id_
  match r with
  | .err e => ({ s with file := f }, .err e)
  | .ok none => ({ s with file := f }, .err (.keyError id_))
  | .ok (some g) => ({ s with file := f }, h5MetaOfAttrs g.attrs)

/-- `HDF5Store.get_data` (file opened `"r"`): the `waveform` dataset, or
the implicit `None` when the group has none. -/
def HStore.get_data (s : HStore) (id_ : String) : HStore × PRes (Option PyVal) :=
  let (f, r) := h5GetGroup false s.read_only s.file id_
  match r with
  | .err e => ({ s with file := f }, .err e)
  | .ok none => ({ s with file := f }, .err (.keyError id_))
  | .ok (some g) => ({ s with file := f }, .ok (alookup g.dsets "waveform"))

/-- h5py stores a Python list attribute as a numpy array. -/
def h5AttrVal : PyVal → PyVal
  | .list l => .arr l
  | v => v

/-- `HDF5Store.store_annotations` behind `@writes` (file opened `"a"`). -/
def HStore.store_annotations (s : HStore) (id_ : String) (kwargs : PyDict) :
    HStore × PRes Bool :=
  if s.read_only then (s, .ok false)
  else
    let (f, r) := h5GetGroup true s.read_only s.file id_
    match r with
    | .err e => ({ s with file := f }, .err e)
    | .ok none => ({ s with file := f }, .err (.keyError id_))
    | .ok (some g) =>
        let g' : H5Group := { g with attrs := dupdate g.attrs (kwargs.map fun kv => (kv.1, h5AttrVal kv.2)) }
        ({ s with file := h5Set f id_ g' }, .ok true)

/-- `HDF5Store.store_metadata` behind `@writes`: the `type` class becomes
its `__name__`, `None` parameters become the string `'None'`, and every
key gains the `transform_` prefix. -/
def HStore.store_metadata (s : HStore) (id_ : String) (kwargs : PyDict) :
    HStore × PRes Bool :=
  if s.read_only then (s, .ok false)
  else
    match
      (match alookup kwargs "type" with
       | none => PRes.ok kwargs
       | some (.ttype k) => PRes.ok (dset kwargs "type" (.str k.tname))
       | some _ => PRes.err (.attributeError "__name__")) with
    | .err e => (s, .err e)
    | .ok kw =>
        let (f, r) := h5GetGroup true s.read_only s.file id_
        match r with
        | .err e => ({ s with file := f }, .err e)
        | .ok none => ({ s with file := f }, .err (.keyError id_))
        | .ok (some g) =>
            let metadata := kw.map fun kv =>
              ("transform_" ++ kv.1, h5AttrVal (if kv.2 = .nonev then .str "None" else kv.2))
            let g' : H5Group := { g with attrs := dupdate g.attrs metadata }
            ({ s with file := h5Set f id_ g' }, .ok true)

/-- `HDF5Store.store_data` behind `@writes`: create the `waveform` dataset
when missing, overwrite it in place otherwise (`overwrite=True`). -/
def HStore.store_data (s : HStore) (id_ : String) (d : PyVal) (overwrite : Bool) :
    HStore × PRes Bool :=
  if s.read_only then (s, .ok false)
  else
    let (f, r) := h5GetGroup true s.read_only s.file id_
    match r with
    | .err e => ({ s with file := f }, .err e)
    | .ok none => ({ s with file := f }, .err (.keyError id_))
    | .ok (some g) =>
        let g' : H5Group :=
          if dcontains g.dsets "waveform" then
            if overwrite then { g with dsets := dset g.dsets "waveform" d } else g
          else { g with dsets := g.dsets ++ [("waveform", d)] }
        ({ s with file := h5Set f id_ g' }, .ok true)

/-- `PandasStore.get_annotations`: indexes `f[id_]` under a
`try/except KeyError` and returns the empty dict for a missing identity. -/
def pandas_get_annotations (f : H5File) (id_ : String) : PRes PyDict :=
  match h5Find f id_ with
  | none => .ok []
  | some g => .ok (g.attrs.filter fun kv => !(kv.1.take 10 == "transform_"))

/-- `PandasStore.get_metadata` (no field arguments): `if id_ in f` guards
the lookup and a missing identity yields the empty dict; otherwise the
`transform_` keys are stripped, `type` is resolved through the registry
and `children`/`parents` are `tolist()`ed. -/
def pandas_get_metadata (f : H5File) (id_ : String) : PRes PyDict :=
  match h5Find f id_ with
  | none => .ok []
  | some g => h5MetaOfAttrs g.attrs

/-! ## `annotations.py`: validation and merge

The recursive Python functions are modelled with an explicit depth budget
equal to the CPython recursion limit; exceeding it is CPython's
`RecursionError`.  The budget is irrelevant for every value whose nesting
depth stays below it. -/

/-- The CPython default recursion limit (`sys.getrecursionlimit()`). -/
def pyRecLimit : Nat := 1000

/-- Membership of a scalar in `ALLOWED_ANNOTATION_TYPES` (numbers,
strings, booleans, `None`; the date/time kinds are not modelled because
no modelled value carries them). -/
def scalarAllowed : PyVal → Bool
  | .intv _ => true
  | .floatv _ => true
  | .boolv _ => true
  | .str _ => true
  | .nonev => true
  | _ => false

/-- The loop of `_check_annotations` over the elements of a list (or the
values of a dict); `rec` is the recursive call one level deeper. -/
def checkList (rec : PyVal → PRes Unit) : List PyVal → PRes Unit
  | [] => .ok ()
  | v :: rest =>
      match rec v with
      | .err e => .err e
      | .ok _ => checkList rec rest

/-- `_check_annotations(value)`: numpy arrays must have an allowed dtype,
dicts and lists are checked element-wise recursively, any other value
must be an allowed scalar, otherwise `ValueError`. -/
def checkAnnGo : Nat → PyVal → PRes Unit
  | 0, _ => .err .recursionError
  | n + 1, v =>
      match v with
      | .arr l =>
          if l.all scalarAllowed then .ok ()
          else .err (.valueError "Invalid annotation dtype")
      | .dict l => checkList (fun x => checkAnnGo n x) (l.map Prod.snd)
      | .list l => checkList (fun x => checkAnnGo n x) l
      | w =>
          if scalarAllowed w then .ok ()
          else .err (.valueError "Invalid annotation type")

/-- `_check_annotations` applied to an annotations dict. -/
def check_annotations (d : PyDict) : PRes Unit :=
  checkAnnGo pyRecLimit (.dict d)

/-- The loop of `merge_annotations` over the first dict's bindings: a key
shared with `B` merges the two values through the recursive call `rec`
(an exception propagates), a key only in `A` is kept as-is. -/
def mergeWalk (rec : PyVal → PyVal → PRes PyVal) : PyDict → PyDict → PRes PyDict
  | [], _ => .ok []
  | (k, va) :: rest, B =>
      match
        (match alookup B k with
         | some vb => rec va vb
         | none => PRes.ok va) with
      | .err e => .err e
      | .ok m =>
          match mergeWalk rec rest B with
          | .err e => .err e
          | .ok ms => .ok ((k, m) :: ms)

/-- `merge_annotation(a, b)` at a given depth: first
`assert type(a) == type(b)`, then dicts merge recursively (the merged
`A`-bindings followed by the keys found only in `B`), arrays and lists
concatenate, equal strings are returned as-is while unequal ones
concatenate with `";"`, and any other pair must already be equal
(`assert a == b`). -/
def mergeGo : Nat → PyVal → PyVal → PRes PyVal
  | 0, _, _ => .err .recursionError
  | n + 1, a, b =>
      if pyType a ≠ pyType b then .err (.assertionError "type mismatch")
      else
        match a, b with
        | .dict A, .dict B =>
            match mergeWalk (fun x y => mergeGo n x y) A B with
            | .err e => .err e
            | .ok m => .ok (.dict (m ++ B.filter fun kv => !(dcontains A kv.1)))
        | .arr A, .arr B => .ok (.arr (A ++ B))
        | .list A, .list B => .ok (.list (A ++ B))
        | .str sa, .str sb =>
            if sa = sb then .ok (.str sa) else .ok (.str (sa ++ ";" ++ sb))
        | x, y => if x = y then .ok x else .err (.assertionError "unequal values")

/-- `merge_annotation(a, b)`. -/
def merge_annotation (a b : PyVal) : PRes PyVal :=
  mergeGo pyRecLimit a b

/-- `merge_annotations(A, B)`. -/
def merge_annotations (A B : PyDict) : PRes PyDict :=
  match mergeWalk (fun x y => mergeGo pyRecLimit x y) A B with
  | .err e => .err e
  | .ok m => .ok (m ++ B.filter fun kv => !(dcontains A kv.1))

/-! ## `sound_manager.py`: root discovery

`SoundManager.get_roots` recurses through the `parents` metadata with no
cycle guard; the model gives the recursion an explicit depth budget, so
`none` means every depth bound is exhausted (in CPython: the recursion
limit is exceeded and `RecursionError` is raised). -/

/-- `len(value)` for the sized Python values. -/
def pyLen : PyVal → Option Nat
  | .list l => some l.length
  | .arr l => some l.length
  | .str s => some s.length
  | .dict l => some l.length
  | _ => none

/-- Python iteration over a sized value (`for pid in metadata["parents"]`). -/
def iterVals : PyVal → Option (List PyVal)
  | .list l => some l
  | .arr l => some l
  | .str s => some (s.data.map fun c => PyVal.str (String.singleton c))
  | .dict l => some (l.map fun kv => PyVal.str kv.1)
  | _ => none

/-- The loop `for pid in metadata["parents"]: roots.extend(get_roots(pid))`;
`rec` is the recursive `get_roots` call one level deeper.  A parent that
is not a string cannot be found in the string-keyed store and raises
`KeyError`; a `none` from the recursion (depth budget exhausted)
propagates. -/
def rootsFold (rec : String → Option (PRes (List String))) :
    List PyVal → Option (PRes (List String))
  | [] => some (.ok [])
  | p :: rest =>
      match p with
      | .str pid =>
          match rec pid with
          | none => none
          | some (.err e) => some (.err e)
          | some (.ok rs) =>
              match rootsFold rec rest with
              | none => none
              | some (.err e) => some (.err e)
              | some (.ok rs2) => some (.ok (rs ++ rs2))
      | _ => some (.err (.keyError "non-string identity"))

/-- `SoundManager.get_roots`: read the metadata of `id_`; when a
non-empty `parents` entry exists, extend with the roots of every parent
recursively, otherwise the identity is its own root.  Exceptions raised
by the store propagate. -/
def rootsGo (store : DictStore) : Nat → String → Option (PRes (List String))
  | 0, _ => none
  | n + 1, id_ =>
      match store.get_metadata id_ with
      | .err e => some (.err e)
      | .ok md =>
          match alookup md "parents" with
          | none => some (.ok [id_])
          | some v =>
              match pyLen v with
              | none => some (.err (.typeError "len() of unsized object"))
              | some 0 => some (.ok [id_])
              | some (_ + 1) =>
                  match iterVals v with
                  | some ps => rootsFold (fun pid => rootsGo store n pid) ps
                  | none => some (.err (.typeError "not iterable"))

/-- `SoundManager.get_roots(id_)` against a `DictStore`, with the given
depth budget. -/
def get_roots (store : DictStore) (fuel : Nat) (id_ : String) :
    Option (PRes (List String)) :=
  rootsGo store fuel id_

/-! ## `sound.py` / `sound_manager.py` / `sound_transforms.py`:
Signal Objects and the store path

A `Sound` is a sample buffer bound to an identity, a samplerate and an
annotations dict.  `Sound.__init__` never creates a `transformation`
attribute, and `SoundManager.__init__` never creates a
`reconstruct_flag` attribute; both are modelled as `Option` fields that
start out `none`, and reading them through `none` is the
`AttributeError` the interpreter raises. -/

/-- The in-memory state of a `Sound` object (mono buffers only: every
modelled buffer is one-dimensional). -/
structure SoundObj where
  id : String
  samplerate : ℚ
  buffer : List PyVal
  annotations : PyDict
  /-- `self.transformation`: never assigned by `Sound.__init__`. -/
  transformation : Option PyDict
  deriving DecidableEq

/-- The state of a `SoundManager` plus the process-wide uuid freshness
counter (`SoundStore.get_id` returns `str(uuid.uuid4())`; the model
issues `uuid-0`, `uuid-1`, ... which are fresh by construction). -/
structure Mgr where
  database : DictStore
  /-- `self.reconstruct_flag`: never assigned by `SoundManager.__init__`
  nor by any other method of the source. -/
  reconstruct_flag : Option Bool
  counter : Nat
  deriving DecidableEq

/-- The identity issued for the n-th `get_id` call. -/
def freshId (n : Nat) : String := "uuid-" ++ toString n

/-- `SoundManager()` over a fresh `DictStore`: `__init__` sets only
`self.database`. -/
def newManager : Mgr := ⟨⟨[], false⟩, none, 0⟩

/-- `Sound(data, samplerate=sr*hertz, manager=mgr)` on a raw buffer or an
existing Sound, with the default `save=True, initialize=False` and no
extra annotations: allocate a fresh identity and run
`self.annotate(samplerate=float(self.samplerate))`, which validates
`{"samplerate": float}` (always legal) and writes it through
`store_annotations` (a no-op returning `False` on a read-only store).
Nothing else is stored for a non-filename, non-`initialize` argument. -/
def soundNew (mgr : Mgr) (buffer : List PyVal) (samplerate : ℚ) : Mgr × SoundObj :=
  let sid := freshId mgr.counter
  let anns : PyDict := [("samplerate", .floatv samplerate)]
  let (db, _) := mgr.database.store_annotations sid anns
  ({ mgr with database := db, counter := mgr.counter + 1 },
   ⟨sid, samplerate, buffer, anns, none⟩)

/-- `SoundTransform._update_children(parent, child)`: reads
`self.manager.database.get_metadata(parent, "children")`.  Against a
`DictStore` (or `HDF5Store`) this call itself raises `TypeError`, because
their `get_metadata` accepts no field argument; the remainder of the body
(append the child and store the grown list) is retained for a store whose
`get_metadata` accepted the call. -/
def updateChildren (mgr : Mgr) (parent child : String) : Mgr × PRes Unit :=
  match mgr.database.get_metadata_call parent [.str "children"] with
  | .err e => (mgr, .err e)
  | .ok md =>
      match
        (match alookup md "children" with
         | none => PRes.ok []
         | some (.list l) => PRes.ok l
         | some _ => PRes.err (.attributeError "append")) with
      | .err e => (mgr, .err e)
      | .ok children =>
          let (db, r) :=
            mgr.database.store_metadata parent
              [("children", .list (children ++ [.str child]))]
          ({ mgr with database := db }, r.map fun _ => ())

/-- Common tail of the transform `store` bodies:
`if self.save: self.manager.database.store_data(id, asarray(derived))`. -/
def storeSaveTail (mgr : Mgr) (save : Bool) (dataId : String) (derived : SoundObj) :
    Mgr × PRes Unit :=
  if save then
    let (db, r) := mgr.database.store_data dataId (.arr derived.buffer)
    ({ mgr with database := db }, r.map fun _ => ())
  else (mgr, .ok ())

/-- `SoundTransform.store` (the base class used by every transform kind
without a bespoke `store`):
1. when an original is given, re-wrap the derived object as
   `self.original.__class__(self.derived, samplerate=self.original.samplerate,
   manager=self.manager)` — a fresh identity plus a samplerate-annotation
   write;
2. read `self.manager.reconstruct_flag` — an attribute no code ever
   assigns, so the read raises `AttributeError`;
3. (for a manager granted the flag) store the metadata, update
   `self.derived.transformation` — an attribute `Sound.__init__` never
   creates — write the `parents` entry, and append the derived identity to
   the parent's `children` through `_update_children`;
4. optionally store the data, and return the derived object. -/
def stStore (mgr : Mgr) (derived0 : SoundObj) (metadata : PyDict)
    (original : Option SoundObj) (save : Bool) : Mgr × PRes SoundObj :=
  let (mgr, derived) :=
    match original with
    | some o => soundNew mgr derived0.buffer o.samplerate
    | none => (mgr, derived0)
  match mgr.reconstruct_flag with
  | none => (mgr, .err (.attributeError "reconstruct_flag"))
  | some flag =>
      if flag then (mgr, .ok derived)
      else
        let (db, r1) := mgr.database.store_metadata derived.id metadata
        let mgr := { mgr with database := db }
        match r1 with
        | .err e => (mgr, .err e)
        | .ok _ =>
            match derived.transformation with
            | none => (mgr, .err (.attributeError "transformation"))
            | some t =>
                let derived := { derived with transformation := some (dupdate t metadata) }
                match original with
                | some o =>
                    let (db, r2) :=
                      mgr.database.store_metadata derived.id [("parents", .list [.str o.id])]
                    let mgr := { mgr with database := db }
                    match r2 with
                    | .err e => (mgr, .err e)
                    | .ok _ =>
                        match updateChildren mgr o.id derived.id with
                        | (mgr, .err e) => (mgr, .err e)
                        | (mgr, .ok _) =>
                            match storeSaveTail mgr save derived.id derived with
                            | (mgr, .err e) => (mgr, .err e)
                            | (mgr, .ok _) => (mgr, .ok derived)
                | none =>
                    let (db, r2) :=
                      mgr.database.store_metadata derived.id [("parents", .list [])]
                    let mgr := { mgr with database := db }
                    match r2 with
                    | .err e => (mgr, .err e)
                    | .ok _ =>
                        match storeSaveTail mgr save derived.id derived with
                        | (mgr, .err e) => (mgr, .err e)
                        | (mgr, .ok _) => (mgr, .ok derived)

/-- `InPlaceMultiplyTransform.store`: wrap the derived object into a
fresh identity (`tmp`), then the same flag / metadata / `transformation`
/ parents / children sequence; the method body ends with
`self.derived.id = tmp.id` and returns `None`. -/
def ipmStore (mgr : Mgr) (derived : SoundObj) (metadata : PyDict)
    (original : Option SoundObj) (save : Bool) : Mgr × PRes (Option SoundObj) :=
  let (mgr, tmp) := soundNew mgr derived.buffer derived.samplerate
  match mgr.reconstruct_flag with
  | none => (mgr, .err (.attributeError "reconstruct_flag"))
  | some flag =>
      if flag then (mgr, .ok none)
      else
        let (db, r1) := mgr.database.store_metadata tmp.id metadata
        let mgr := { mgr with database := db }
        match r1 with
        | .err e => (mgr, .err e)
        | .ok _ =>
            match derived.transformation with
            | none => (mgr, .err (.attributeError "transformation"))
            | some _ =>
                match original with
                | some o =>
                    let (db, r2) :=
                      mgr.database.store_metadata tmp.id [("parents", .list [.str o.id])]
                    let mgr := { mgr with database := db }
                    match r2 with
                    | .err e => (mgr, .err e)
                    | .ok _ =>
                        match updateChildren mgr o.id tmp.id with
                        | (mgr, .err e) => (mgr, .err e)
                        | (mgr, .ok _) =>
                            match storeSaveTail mgr save tmp.id derived with
                            | (mgr, .err e) => (mgr, .err e)
                            | (mgr, .ok _) => (mgr, .ok none)
                | none =>
                    match storeSaveTail mgr save tmp.id derived with
                    | (mgr, .err e) => (mgr, .err e)
                    | (mgr, .ok _) => (mgr, .ok none)

/-- `SetTransform.store`: when the original lacks an `id` it is
re-created as `Sound(self.original, initialize=True, ...)` — with
`original=None` that is `Sound(None, ...)`, which the sound library
rejects; otherwise wrap the derived object into `tmp`, then flag /
metadata / `transformation` / `parents=[derived.id, original.id]` /
two `_update_children` calls / optional data write; returns `None`. -/
def setStore (mgr : Mgr) (derived : SoundObj) (metadata : PyDict)
    (original : Option SoundObj) (save : Bool) : Mgr × PRes (Option SoundObj) :=
  match original with
  | none => (mgr, .err (.typeError "Sound(None)"))
  | some o =>
      let (mgr, tmp) := soundNew mgr derived.buffer derived.samplerate
      match mgr.reconstruct_flag with
      | none => (mgr, .err (.attributeError "reconstruct_flag"))
      | some flag =>
          if flag then (mgr, .ok none)
          else
            let (db, r1) := mgr.database.store_metadata tmp.id metadata
            let mgr := { mgr with database := db }
            match r1 with
            | .err e => (mgr, .err e)
            | .ok _ =>
                match derived.transformation with
                | none => (mgr, .err (.attributeError "transformation"))
                | some _ =>
                    let (db, r2) :=
                      mgr.database.store_metadata tmp.id
                        [("parents", .list [.str derived.id, .str o.id])]
                    let mgr := { mgr with database := db }
                    match r2 with
                    | .err e => (mgr, .err e)
                    | .ok _ =>
                        match updateChildren mgr derived.id tmp.id with
                        | (mgr, .err e) => (mgr, .err e)
                        | (mgr, .ok _) =>
                            match updateChildren mgr o.id tmp.id with
                            | (mgr, .err e) => (mgr, .err e)
                            | (mgr, .ok _) =>
                                match storeSaveTail mgr save derived.id derived with
                                | (mgr, .err e) => (mgr, .err e)
                                | (mgr, .ok _) => (mgr, .ok none)

/-- `AddTransform.store` begins with
`ids = [orig.id for orig in self.original]`.  `SoundManager.store` always
passes a single Sound (or `None`) as `original`, so the comprehension
iterates over the *samples* of a Sound — whose elements have no `id` —
or over `None`. -/
def addStore (mgr : Mgr) (original : Option SoundObj) : Mgr × PRes (Option SoundObj) :=
  match original with
  | none => (mgr, .err (.typeError "'NoneType' object is not iterable"))
  | some s =>
      match s.buffer with
      | [] => (mgr, .err (.indexError "index 0 is out of bounds"))
      | _ :: _ => (mgr, .err (.attributeError "id"))

/-- `FilterTransform.store`: re-wrap the derived object with the
original's samplerate and manager, then run the base `store` (which
re-wraps once more). -/
def filterStore (mgr : Mgr) (derived : SoundObj) (metadata : PyDict)
    (original : Option SoundObj) (save : Bool) : Mgr × PRes (Option SoundObj) :=
  match original with
  | none => (mgr, .err (.attributeError "samplerate"))
  | some o =>
      let (mgr, derived) := soundNew mgr derived.buffer o.samplerate
      match stStore mgr derived metadata original save with
      | (mgr, .err e) => (mgr, .err e)
      | (mgr, .ok d) => (mgr, .ok (some d))

/-- `SoundManager.store(derived, metadata, original)`: resolve
`metadata["type"]` (a `KeyError` with an explanatory message when
absent), instantiate the transform with `save=False` (the constructor
default — no call site passes `save`), and run its `store` method.
The kinds with a bespoke `store` are dispatched to it; every other kind
uses the base `SoundTransform.store`. -/
def smStore (mgr : Mgr) (derived : SoundObj) (metadata : PyDict)
    (original : Option SoundObj) : Mgr × PRes (Option SoundObj) :=
  match alookup metadata "type" with
  | none => (mgr, .err (.keyError "type"))
  | some (.ttype .FilterTransform) => filterStore mgr derived metadata original false
  | some (.ttype .InPlaceMultiplyTransform) => ipmStore mgr derived metadata original false
  | some (.ttype .AddTransform) => addStore mgr original
  | some (.ttype .SetTransform) => setStore mgr derived metadata original false
  | some (.ttype _) =>
      match stStore mgr derived metadata original false with
      | (mgr, .err e) => (mgr, .err e)
      | (mgr, .ok d) => (mgr, .ok (some d))
  | some _ => (mgr, .err (.typeError "object is not callable"))

/-- `Sound.slice(start, stop)` through its decorators.  The method body
rounds both ends to samples and slices the buffer; `@ensure_type` wraps
the result into a fresh `Sound` bound to the same manager; then
`@store_transformation` hands it to `SoundManager.store` together with
`metadata = {type: SliceTransform, start_time, stop_time}` and returns
the wrapped slice.  An exception from the store path propagates. -/
def soundSlice (mgr : Mgr) (obj : SoundObj) (start : ℚ) (stop : Option ℚ) :
    Mgr × PRes SoundObj :=
  let stopT := match stop with
    | some t => t
    | none => (obj.buffer.length : ℚ) / obj.samplerate
  let i := ⌊start * obj.samplerate⌋
  let j := ⌊stopT * obj.samplerate⌋
  let sliced := (obj.buffer.drop i.toNat).take (j - i).toNat
  let metadata : PyDict :=
    [("type", .ttype .SliceTransform),
     ("start_time", .floatv (i / obj.samplerate)),
     ("stop_time", .floatv (j / obj.samplerate))]
  let (mgr, wrapped) := soundNew mgr sliced obj.samplerate
  match smStore mgr wrapped metadata (some obj) with
  | (mgr, .err e) => (mgr, .err e)
  | (mgr, .ok _) => (mgr, .ok wrapped)

/-! ## `sound_manager.py`: reconstruction

`SoundManager.reconstruct` and `SoundManager.reconstruct_individual`
replay the stored transforms recursively.  The per-kind `reconstruct`
bodies of `sound_transforms.py` are modelled below; paths that hand a
buffer to the external DSP/sound library in a way whose *result* would
flow onward are marked `externalCall` (no theorem relies on them). -/

/-- A value that is either a `Sound` object or Python `None`. -/
abbrev ObjV := Option SoundObj

/-- A numeric Python value as a rational. -/
def ratOfVal : PyVal → Option ℚ
  | .intv n => some (n : ℚ)
  | .floatv q => some q
  | .boolv b => some (if b then 1 else 0)
  | _ => none

/-- `metadata["samplerate"] * hertz`: a `KeyError` when absent, a
`TypeError` when not numeric. -/
def mdSamplerate (md : PyDict) : PRes ℚ :=
  match alookup md "samplerate" with
  | none => .err (.keyError "samplerate")
  | some v =>
      match ratOfVal v with
      | some q => .ok q
      | none => .err (.typeError "samplerate * hertz")

/-- A stored waveform handed to `Sound(...)`: it must be array-like. -/
def bufferOfData : PyVal → PRes (List PyVal)
  | .arr l => .ok l
  | .list l => .ok l
  | _ => .err (.typeError "Sound() argument")

/-- A float lookup `metadata[key]` used in an arithmetic position
(`* second`, a comparison, ...). -/
def mdRat (md : PyDict) (key : String) : PRes ℚ :=
  match alookup md key with
  | none => .err (.keyError key)
  | some v =>
      match ratOfVal v with
      | some q => .ok q
      | none => .err (.typeError "unsupported operand type")

/-- `coeff * sound` on a numeric buffer (numpy broadcasting): every
sample must be numeric. -/
def scaleBuffer (c : ℚ) : List PyVal → PRes (List PyVal)
  | [] => .ok []
  | v :: rest =>
      match ratOfVal v with
      | none => .err (.typeError "unsupported operand type")
      | some q =>
          match scaleBuffer c rest with
          | .err e => .err e
          | .ok l => .ok (.floatv (c * q) :: l)

/-- Root-branch dispatch of `get_waveform_ind`:
`transform.reconstruct(waveform, metadata, silence, manager=self)`.
Only `Init`/`Load`/`Create` declare a `silence` parameter; the base
`SoundTransform` has no `reconstruct` attribute at all, and every other
kind's signature is `(waveform, metadata, manager=None)`, so the call
binds `silence` positionally to `manager` and clashes with the keyword. -/
def reconRootInd (mgr : Mgr) (k : TKind) (w : Option PyVal) (md : PyDict)
    (silence : Bool) : Mgr × PRes ObjV :=
  match k with
  | .SoundTransform => (mgr, .err (.attributeError "reconstruct"))
  | .InitTransform | .LoadTransform | .CreateTransform =>
      match mdSamplerate md with
      | .err e => (mgr, .err e)
      | .ok sr =>
          match w with
          | some d =>
              match bufferOfData d with
              | .err e => (mgr, .err e)
              | .ok buf =>
                  let (mgr, sound) := soundNew mgr buf sr
                  if silence then
                    -- sound.to_silence() → Sound.silence via @create_sound: the
                    -- silent buffer is synthesised under a *fresh default*
                    -- SoundManager, whose store path then reads the unset
                    -- reconstruct_flag
                    (mgr, .err (.attributeError "reconstruct_flag"))
                  else (mgr, .ok (some sound))
          | none =>
              match k with
              | .LoadTransform =>
                  -- sound = Sound(metadata["filename"], manager=manager)
                  match alookup md "filename" with
                  | none => (mgr, .err (.keyError "filename"))
                  | some _ => (mgr, .err (.externalCall "Sound(filename)"))
              | .CreateTransform =>
                  -- create = getattr(Sound, metadata["sound"]); create(...)
                  match alookup md "sound" with
                  | none => (mgr, .err (.keyError "sound"))
                  | some _ => (mgr, .err (.externalCall "Sound factory"))
              | _ =>
                  -- InitTransform with no waveform: `sound` was never bound
                  (mgr, .err (.nameError "sound"))
  | _ => (mgr, .err (.typeError "got multiple values for argument manager"))

/-- Root-branch dispatch of the full `get_waveform`:
`transform.reconstruct(waveform, metadata, manager=self)` with `waveform`
the raw `get_data` result (`ComponentTransform` is recursive and is
intercepted inside `run` before this helper is consulted). -/
def reconRootFull (mgr : Mgr) (k : TKind) (w : Option PyVal) (md : PyDict) :
    Mgr × PRes ObjV :=
  match k with
  | .SoundTransform => (mgr, .err (.attributeError "reconstruct"))
  | .ComponentTransform => (mgr, .err (.externalCall "intercepted in run"))
  | .InitTransform | .LoadTransform | .CreateTransform => reconRootInd mgr k w md false
  | .MonoTransform =>
      -- raw data has no samplerate attribute → metadata["samplerate"];
      -- Sound(waveform, ...) then sound.to_mono(): on the (always mono)
      -- modelled buffers to_mono raises UnprocessedError, which
      -- @store_transformation catches, returning the sound unchanged
      match mdSamplerate md with
      | .err e => (mgr, .err e)
      | .ok sr =>
          match w with
          | none => (mgr, .err (.typeError "Sound(None)"))
          | some d =>
              match bufferOfData d with
              | .err e => (mgr, .err e)
              | .ok buf =>
                  let (mgr, sound) := soundNew mgr buf sr
                  (mgr, .ok (some sound))
  | .FilterTransform =>
      match mdSamplerate md with
      | .err e => (mgr, .err e)
      | .ok sr =>
          match w with
          | none => (mgr, .err (.typeError "Sound(None)"))
          | some d =>
              match bufferOfData d with
              | .err e => (mgr, .err e)
              | .ok buf =>
                  let (mgr, sound) := soundNew mgr buf sr
                  -- sound.filter([min_f, max_f], filter_order=order)
                  match mdRat md "min_frequency" with
                  | .err e => (mgr, .err e)
                  | .ok minf =>
                      match mdRat md "max_frequency" with
                      | .err e => (mgr, .err e)
                      | .ok maxf =>
                          match alookup md "order" with
                          | none => (mgr, .err (.keyError "order"))
                          | some ov =>
                              let nsamples : ℚ := buf.length
                              let nyquist : ℚ := sr / 2
                              match
                                (match ov with
                                 | .nonev =>
                                     PRes.ok (if nsamples > 3 * 512 then (512 : ℚ)
                                              else if nsamples > 3 * 64 then 64 else 16)
                                 | v =>
                                     match ratOfVal v with
                                     | some q => PRes.ok q
                                     | none => PRes.err (.typeError "unsupported operand type")) with
                              | .err e => (mgr, .err e)
                              | .ok order =>
                                  if order * 3 ≥ nsamples then
                                    (mgr, .err (.valueError "filter_order cannot be greater than nsamples / 3"))
                                  else if maxf > nyquist then
                                    (mgr, .err (.valueError "frequency_range[1] cannot be greater than the nyquist frequency"))
                                  else if minf = 0 ∧ ¬(maxf < nyquist) then
                                    -- raise UnprocessedError("No filtering is necessary"),
                                    -- caught by @store_transformation: the sound is returned
                                    (mgr, .ok (some sound))
                                  else
                                    -- firwin/filtfilt run, then the store path reads the
                                    -- unset reconstruct_flag
                                    (mgr, .err (.attributeError "reconstruct_flag"))
  | .RampTransform =>
      match mdSamplerate md with
      | .err e => (mgr, .err e)
      | .ok sr =>
          match w with
          | none => (mgr, .err (.typeError "Sound(None)"))
          | some d =>
              match bufferOfData d with
              | .err e => (mgr, .err e)
              | .ok buf =>
                  let (mgr, _) := soundNew mgr buf sr
                  match alookup md "when" with
                  | none => (mgr, .err (.keyError "when"))
                  | some _ =>
                      match mdRat md "duration" with
                      | .err e => (mgr, .err e)
                      | .ok _ =>
                          -- sound.ramp(...): the ramp is computed, then the
                          -- store path reads the unset reconstruct_flag
                          (mgr, .err (.attributeError "reconstruct_flag"))
  | .ResampleTransform =>
      match mdSamplerate md with
      | .err e => (mgr, .err e)
      | .ok sr =>
          match w with
          | none => (mgr, .err (.typeError "Sound(None)"))
          | some d =>
              match bufferOfData d with
              | .err e => (mgr, .err e)
              | .ok buf =>
                  let (mgr, sound) := soundNew mgr buf sr
                  match alookup md "new_samplerate" with
                  | none => (mgr, .err (.keyError "new_samplerate"))
                  | some _ =>
                      match alookup md "resample_type" with
                      | none => (mgr, .err (.keyError "resample_type"))
                      | some _ =>
                          -- the source passes the *current* samplerate to
                          -- sound.resample, which raises UnprocessedError
                          -- ("Samplerate is already ...") — caught by the
                          -- decorator: the sound is returned unresampled
                          (mgr, .ok (some sound))
  | .PadTransform =>
      match mdSamplerate md with
      | .err e => (mgr, .err e)
      | .ok sr =>
          match w with
          | none => (mgr, .err (.typeError "Sound(None)"))
          | some d =>
              match bufferOfData d with
              | .err e => (mgr, .err e)
              | .ok buf =>
                  let (mgr, sound) := soundNew mgr buf sr
                  match mdRat md "start_time" with
                  | .err e => (mgr, .err e)
                  | .ok _ =>
                      match mdRat md "duration" with
                      | .err e => (mgr, .err e)
                      | .ok dur =>
                          if dur < (buf.length : ℚ) / sr then
                            -- raise UnprocessedError("Sound already has a duration
                            -- greater than ..."), caught by the decorator
                            (mgr, .ok (some sound))
                          else
                            -- the padded buffer is computed, then the store path
                            -- reads the unset reconstruct_flag
                            (mgr, .err (.attributeError "reconstruct_flag"))
  | .ClipTransform =>
      match mdSamplerate md with
      | .err e => (mgr, .err e)
      | .ok sr =>
          match w with
          | none => (mgr, .err (.typeError "Sound(None)"))
          | some d =>
              match bufferOfData d with
              | .err e => (mgr, .err e)
              | .ok buf =>
                  let (mgr, _) := soundNew mgr buf sr
                  match alookup md "min_value" with
                  | none => (mgr, .err (.keyError "min_value"))
                  | some _ =>
                      match alookup md "max_value" with
                      | none => (mgr, .err (.keyError "max_value"))
                      | some _ =>
                          -- sound.clip(min_value, max_value) (note the swapped
                          -- parameter order in the source) computes the clipped
                          -- buffer, then the store path reads the unset
                          -- reconstruct_flag
                          (mgr, .err (.attributeError "reconstruct_flag"))
  | .SliceTransform =>
      -- hasattr check → metadata["samplerate"], then waveform = waveform[0]
      match mdSamplerate md with
      | .err e => (mgr, .err e)
      | .ok _ =>
          match w with
          | none => (mgr, .err (.typeError "'NoneType' object has no attribute '__getitem__'"))
          | some d =>
              match bufferOfData d with
              | .err e => (mgr, .err e)
              | .ok buf =>
                  match buf with
                  | [] => (mgr, .err (.indexError "index 0 is out of bounds"))
                  | _ :: _ =>
                      -- Sound(sample, ...) of a scalar leaves the modelled core
                      (mgr, .err (.externalCall "Sound(scalar)"))
  | .MultiplyTransform | .InPlaceMultiplyTransform =>
      match mdSamplerate md with
      | .err e => (mgr, .err e)
      | .ok sr =>
          match w with
          | none => (mgr, .err (.typeError "Sound(None)"))
          | some d =>
              match bufferOfData d with
              | .err e => (mgr, .err e)
              | .ok buf =>
                  let (mgr, sound) := soundNew mgr buf sr
                  -- coeff = metadata["coefficient"] (Sound.scale stores the key
                  -- "coefficients", so replaying a scale raises KeyError here)
                  match mdRat md "coefficient" with
                  | .err e => (mgr, .err e)
                  | .ok c =>
                      match scaleBuffer c sound.buffer with
                      | .err e => (mgr, .err e)
                      | .ok scaled =>
                          -- coeff * sound yields a view: no fresh identity
                          (mgr, .ok (some { sound with buffer := scaled }))
  | .AddTransform | .SetTransform =>
      -- waveforms[0] on the raw data
      match w with
      | none => (mgr, .err (.typeError "'NoneType' object has no attribute '__getitem__'"))
      | some d =>
          match bufferOfData d with
          | .err e => (mgr, .err e)
          | .ok buf =>
              match buf with
              | [] => (mgr, .err (.indexError "index 0 is out of bounds"))
              | _ :: _ =>
                  -- a raw sample has no samplerate attribute
                  match mdSamplerate md with
                  | .err e => (mgr, .err e)
                  | .ok _ => (mgr, .err (.externalCall "Sound(scalar)"))

/-- Parents-branch dispatch:
`transform.reconstruct([waveforms...], metadata, manager=self)` where the
waveforms are the recursively reconstructed parent Sounds
(`ComponentTransform` is recursive and is intercepted inside `run`). -/
def reconParents (mgr : Mgr) (k : TKind) (ws : List ObjV) (md : PyDict) :
    Mgr × PRes ObjV :=
  match k with
  | .SoundTransform => (mgr, .err (.attributeError "reconstruct"))
  | .ComponentTransform => (mgr, .err (.externalCall "intercepted in run"))
  | .AddTransform | .SetTransform =>
      -- `if hasattr(waveforms[0], "samplerate"): samplerate = waveform.samplerate`
      -- references the undefined name `waveform`
      match ws with
      | [] => (mgr, .err (.indexError "index 0 is out of bounds"))
      | some _ :: _ => (mgr, .err (.nameError "waveform"))
      | none :: _ =>
          match mdSamplerate md with
          | .err e => (mgr, .err e)
          | .ok _ => (mgr, .err (.typeError "Sound(None)"))
  | .SliceTransform =>
      -- a list has no samplerate attribute → metadata["samplerate"];
      -- then waveform = waveform[0] and the slice runs on that Sound
      match mdSamplerate md with
      | .err e => (mgr, .err e)
      | .ok sr =>
          match ws with
          | [] => (mgr, .err (.indexError "index 0 is out of bounds"))
          | none :: _ => (mgr, .err (.typeError "Sound(None)"))
          | some s :: _ =>
              let (mgr, sound) := soundNew mgr s.buffer sr
              match mdRat md "start_time" with
              | .err e => (mgr, .err e)
              | .ok st =>
                  -- SliceTransform.store records "stop_time" but reconstruct
                  -- reads "end_time"
                  match mdRat md "end_time" with
                  | .err e => (mgr, .err e)
                  | .ok et =>
                      let i := ⌊st * sr⌋
                      let j := ⌊et * sr⌋
                      let sliced := (sound.buffer.drop i.toNat).take (j - i).toNat
                      -- time-slicing yields a view: no fresh identity
                      (mgr, .ok (some { sound with buffer := sliced }))
  | _ =>
      -- every remaining kind evaluates metadata["samplerate"] (a list has no
      -- samplerate attribute) and then builds Sound(list-of-Sounds, ...),
      -- which leaves the modelled mono core
      match mdSamplerate md with
      | .err e => (mgr, .err e)
      | .ok _ => (mgr, .err (.externalCall "Sound(list)"))

/-- The metadata dict built by `reconstruct_individual` for the
Component node it stores. -/
def componentMD (id_ root_id : String) : PyDict :=
  [("type", .ttype .ComponentTransform), ("id", .str id_),
   ("root_id", .str root_id), ("parents", .list [.str id_, .str root_id])]

/-- `metadata["id"]` and `metadata["root_id"]` as consumed by
`ComponentTransform.reconstruct` / `reconstruct_individual`. -/
def componentArgs (md : PyDict) : PRes (String × String) :=
  match alookup md "id" with
  | none => .err (.keyError "id")
  | some (.str i) =>
      match alookup md "root_id" with
      | none => .err (.keyError "root_id")
      | some (.str r) => .ok (i, r)
      | some _ => .err (.keyError "non-string identity")
  | some _ => .err (.keyError "non-string identity")

/-- The call shapes of the mutually recursive reconstruction walk:
`wave` is the inner `get_waveform` of `SoundManager.reconstruct`,
`waveList` its loop over parent identities, `waveInd`/`waveIndList` the
corresponding pieces of `reconstruct_individual`'s `get_waveform_ind`
(which additionally carries the target root), `rind` is
`reconstruct_individual` itself and `rindStore` its tail that replays
the waveform and stores the Component node. -/
inductive RCall where
  | wave (id_ : String)
  | waveList (ps : List PyVal)
  | waveInd (root_id id_ : String)
  | waveIndList (root_id : String) (ps : List PyVal)
  | rind (id_ root_id : String)
  | rindStore (id_ root_id : String)

/-- Result shapes of the walk: a Sound-or-None, or a list of them. -/
inductive RRes where
  | obj (o : ObjV)
  | objs (l : List ObjV)
  deriving DecidableEq

/-- Lift a single-object dispatch result into the walk's result shape. -/
def liftObj (p : Mgr × PRes ObjV) : Mgr × PRes RRes :=
  (p.1, p.2.map RRes.obj)

/-- The reconstruction walk, structurally recursive on an explicit depth
budget (a `none` result means every budget is exhausted — CPython's
recursion limit).  Each case mirrors the corresponding source lines of
`sound_manager.py`; exceptions abort the walk but keep the writes
performed so far. -/
def run : Nat → Mgr → RCall → Option (Mgr × PRes RRes)
  | 0, _, _ => none
  | n + 1, mgr, .wave id_ =>
      -- get_waveform: data = self.database.get_data(id_)
      match mgr.database.get_data id_ with
      | .err e => some (mgr, .err e)
      | .ok (some d) =>
          -- samplerate = self.database.get_annotations(id_)["samplerate"];
          -- return Sound(data, samplerate=samplerate * hertz, manager=self)
          match mgr.database.get_annotations id_ with
          | .err e => some (mgr, .err e)
          | .ok anns =>
              match alookup anns "samplerate" with
              | none => some (mgr, .err (.keyError "samplerate"))
              | some v =>
                  match ratOfVal v with
                  | none => some (mgr, .err (.typeError "samplerate * hertz"))
                  | some sr =>
                      match bufferOfData d with
                      | .err e => some (mgr, .err e)
                      | .ok buf =>
                          let (mgr, s) := soundNew mgr buf sr
                          some (mgr, .ok (.obj (some s)))
      | .ok none =>
          match mgr.database.get_metadata id_ with
          | .err e => some (mgr, .err e)
          | .ok md =>
              match alookup md "type" with
              | none => some (mgr, .err (.keyError "type"))
              | some tval =>
                  match alookup md "parents" with
                  | some pv =>
                      match pyLen pv with
                      | none => some (mgr, .err (.typeError "len() of unsized object"))
                      | some 0 =>
                          -- waveform = self.database.get_data(id_) (again)
                          match mgr.database.get_data id_ with
                          | .err e => some (mgr, .err e)
                          | .ok w =>
                              match tval with
                              | .ttype .ComponentTransform =>
                                  match componentArgs md with
                                  | .err e => some (mgr, .err e)
                                  | .ok (i, r) => run n mgr (.rind i r)
                              | .ttype k => some (liftObj (reconRootFull mgr k w md))
                              | _ => some (mgr, .err (.attributeError "reconstruct"))
                      | some (_ + 1) =>
                          match iterVals pv with
                          | none => some (mgr, .err (.typeError "not iterable"))
                          | some ps =>
                              -- the callee `transform.reconstruct` is resolved
                              -- before the argument comprehension runs
                              match tval with
                              | .ttype .SoundTransform =>
                                  some (mgr, .err (.attributeError "reconstruct"))
                              | .ttype k =>
                                  match run n mgr (.waveList ps) with
                                  | none => none
                                  | some (mgr, .err e) => some (mgr, .err e)
                                  | some (mgr, .ok (.objs ws)) =>
                                      match k with
                                      | .ComponentTransform =>
                                          match componentArgs md with
                                          | .err e => some (mgr, .err e)
                                          | .ok (i, r) => run n mgr (.rind i r)
                                      | _ => some (liftObj (reconParents mgr k ws md))
                                  | some (mgr, .ok _) =>
                                      some (mgr, .err (.typeError "model: unexpected shape"))
                              | _ => some (mgr, .err (.attributeError "reconstruct"))
                  | none =>
                      match mgr.database.get_data id_ with
                      | .err e => some (mgr, .err e)
                      | .ok w =>
                          match tval with
                          | .ttype .ComponentTransform =>
                              match componentArgs md with
                              | .err e => some (mgr, .err e)
                              | .ok (i, r) => run n mgr (.rind i r)
                          | .ttype k => some (liftObj (reconRootFull mgr k w md))
                          | _ => some (mgr, .err (.attributeError "reconstruct"))
  | _ + 1, mgr, .waveList [] => some (mgr, .ok (.objs []))
  | n + 1, mgr, .waveList (p :: rest) =>
      match p with
      | .str pid =>
          match run n mgr (.wave pid) with
          | none => none
          | some (mgr, .err e) => some (mgr, .err e)
          | some (mgr, .ok (.obj o)) =>
              match run n mgr (.waveList rest) with
              | none => none
              | some (mgr, .err e) => some (mgr, .err e)
              | some (mgr, .ok (.objs os)) => some (mgr, .ok (.objs (o :: os)))
              | some (mgr, .ok _) =>
                  some (mgr, .err (.typeError "model: unexpected shape"))
          | some (mgr, .ok _) => some (mgr, .err (.typeError "model: unexpected shape"))
      | _ => some (mgr, .err (.keyError "non-string identity"))
  | n + 1, mgr, .waveInd root_id id_ =>
      -- get_waveform_ind: metadata first, then transform = metadata["type"]
      match mgr.database.get_metadata id_ with
      | .err e => some (mgr, .err e)
      | .ok md =>
          match alookup md "type" with
          | none => some (mgr, .err (.keyError "type"))
          | some tval =>
              match alookup md "parents" with
              | some pv =>
                  match pyLen pv with
                  | none => some (mgr, .err (.typeError "len() of unsized object"))
                  | some 0 =>
                      -- silence = id_ != root_id; waveform = get_data(id_)
                      match mgr.database.get_data id_ with
                      | .err e => some (mgr, .err e)
                      | .ok w =>
                          match tval with
                          | .ttype k =>
                              some (liftObj (reconRootInd mgr k w md (decide (id_ ≠ root_id))))
                          | _ => some (mgr, .err (.attributeError "reconstruct"))
                  | some (_ + 1) =>
                      match iterVals pv with
                      | none => some (mgr, .err (.typeError "not iterable"))
                      | some ps =>
                          match tval with
                          | .ttype .SoundTransform =>
                              some (mgr, .err (.attributeError "reconstruct"))
                          | .ttype k =>
                              match run n mgr (.waveIndList root_id ps) with
                              | none => none
                              | some (mgr, .err e) => some (mgr, .err e)
                              | some (mgr, .ok (.objs ws)) =>
                                  match k with
                                  | .ComponentTransform =>
                                      match componentArgs md with
                                      | .err e => some (mgr, .err e)
                                      | .ok (i, r) => run n mgr (.rind i r)
                                  | _ => some (liftObj (reconParents mgr k ws md))
                              | some (mgr, .ok _) =>
                                  some (mgr, .err (.typeError "model: unexpected shape"))
                          | _ => some (mgr, .err (.attributeError "reconstruct"))
              | none =>
                  match mgr.database.get_data id_ with
                  | .err e => some (mgr, .err e)
                  | .ok w =>
                      match tval with
                      | .ttype k =>
                          some (liftObj (reconRootInd mgr k w md (decide (id_ ≠ root_id))))
                      | _ => some (mgr, .err (.attributeError "reconstruct"))
  | _ + 1, mgr, .waveIndList _ [] => some (mgr, .ok (.objs []))
  | n + 1, mgr, .waveIndList root_id (p :: rest) =>
      match p with
      | .str pid =>
          match run n mgr (.waveInd root_id pid) with
          | none => none
          | some (mgr, .err e) => some (mgr, .err e)
          | some (mgr, .ok (.obj o)) =>
              match run n mgr (.waveIndList root_id rest) with
              | none => none
              | some (mgr, .err e) => some (mgr, .err e)
              | some (mgr, .ok (.objs os)) => some (mgr, .ok (.objs (o :: os)))
              | some (mgr, .ok _) =>
                  some (mgr, .err (.typeError "model: unexpected shape"))
          | some (mgr, .ok _) => some (mgr, .err (.typeError "model: unexpected shape"))
      | _ => some (mgr, .err (.keyError "non-string identity"))
  | n + 1, mgr, .rind id_ root_id =>
      -- roots = self.get_roots(id_); if root_id not in roots: return None
      match rootsGo mgr.database n id_ with
      | none => none
      | some (.err e) => some (mgr, .err e)
      | some (.ok roots) =>
          if root_id ∈ roots then
            -- component_id = self.database.filter_ids(transform_id=id_,
            --                                        transform_root_id=root_id)
            match
              mgr.database.filter_ids none
                [("transform_id", .str id_), ("transform_root_id", .str root_id)] with
            | cid :: _ =>
                match mgr.database.get_data cid with
                | .err e => some (mgr, .err e)
                | .ok (some d) =>
                    -- memoized fast path: wrap the stored buffer
                    match mgr.database.get_annotations cid with
                    | .err e => some (mgr, .err e)
                    | .ok anns =>
                        match alookup anns "samplerate" with
                        | none => some (mgr, .err (.keyError "samplerate"))
                        | some v =>
                            match ratOfVal v with
                            | none => some (mgr, .err (.typeError "samplerate * hertz"))
                            | some sr =>
                                match bufferOfData d with
                                | .err e => some (mgr, .err e)
                                | .ok buf =>
                                    let (mgr, s) := soundNew mgr buf sr
                                    -- sound.id = component_id;
                                    -- sound.annotations.update(get_annotations(cid))
                                    match mgr.database.get_annotations cid with
                                    | .err e => some (mgr, .err e)
                                    | .ok anns2 =>
                                        some (mgr, .ok (.obj (some
                                          { s with id := cid,
                                                   annotations := dupdate s.annotations anns2 })))
                | .ok none => run n mgr (.rindStore id_ root_id)
            | [] => run n mgr (.rindStore id_ root_id)
          else some (mgr, .ok (.obj none))
  | n + 1, mgr, .rindStore id_ root_id =>
      -- sound = get_waveform_ind(id_); self.store(sound, metadata); return sound
      match run n mgr (.waveInd root_id id_) with
      | none => none
      | some (mgr, .err e) => some (mgr, .err e)
      | some (mgr, .ok (.obj sv)) =>
          match sv with
          | some s =>
              match smStore mgr s (componentMD id_ root_id) none with
              | (mgr, .err e) => some (mgr, .err e)
              | (mgr, .ok _) => some (mgr, .ok (.obj sv))
          | none =>
              -- self.store(None, metadata): the base store skips the re-wrap
              -- (original is None) and reads the unset reconstruct_flag before
              -- touching the derived object
              match mgr.reconstruct_flag with
              | none => some (mgr, .err (.attributeError "reconstruct_flag"))
              | some true => some (mgr, .ok (.obj none))
              | some false => some (mgr, .err (.attributeError "id"))
      | some (mgr, .ok _) => some (mgr, .err (.typeError "model: unexpected shape"))

/-- `SoundManager.reconstruct(id_)`: run the inner `get_waveform`, then
`sound.id = id_` and `sound.annotations.update(get_annotations(id_))`. -/
def smReconstruct (fuel : Nat) (mgr : Mgr) (id_ : String) :
    Option (Mgr × PRes SoundObj) :=
  match run fuel mgr (.wave id_) with
  | none => none
  | some (mgr, .err e) => some (mgr, .err e)
  | some (mgr, .ok (.obj (some s))) =>
      match mgr.database.get_annotations id_ with
      | .err e => some (mgr, .err e)
      | .ok anns =>
          some (mgr, .ok { s with id := id_, annotations := dupdate s.annotations anns })
  | some (mgr, .ok (.obj none)) => some (mgr, .err (.attributeError "id"))
  | some (mgr, .ok (.objs _)) => some (mgr, .err (.typeError "model: unexpected shape"))

/-- `SoundManager.reconstruct_individual(id_, root_id)`. -/
def smReconstructIndividual (fuel : Nat) (mgr : Mgr) (id_ root_id : String) :
    Option (Mgr × PRes ObjV) :=
  match run fuel mgr (.rind id_ root_id) with
  | none => none
  | some (mgr, .err e) => some (mgr, .err e)
  | some (mgr, .ok (.obj o)) => some (mgr, .ok o)
  | some (mgr, .ok (.objs _)) => some (mgr, .err (.typeError "model: unexpected shape"))

/-! ## Concrete stores and scenarios used by the theorems -/

/-- The buffer of the freshly created root Sound of the round-trip
scenario (`Sound(np.array([1,1,1,0,0]), samplerate=10*hertz, manager)`). -/
def c1buf : List PyVal := [.floatv 1, .floatv 1, .floatv 1, .floatv 0, .floatv 0]

/-- The manager state after creating the root Sound of the round-trip
scenario over a fresh default manager. -/
def c1mgr : Mgr := (soundNew newManager c1buf 10).1

/-- The freshly created root Sound itself (identity `uuid-0`). -/
def c1root : SoundObj := (soundNew newManager c1buf 10).2

/-- A store holding one root with materialised data and a samplerate
annotation — the shape `reconstruct` expects for its fast path. -/
def c2db : DictStore :=
  ⟨[("root", [("samplerate", .floatv 10),
              ("waveform", .arr [.floatv 1, .floatv 2])])], false⟩

/-- A manager over `c2db` as `SoundManager.__init__` leaves it. -/
def c2mgr : Mgr := ⟨c2db, none, 0⟩

/-- Transform metadata for a slice, as `Sound.slice` builds it. -/
def c5md : PyDict :=
  [("type", .ttype .SliceTransform), ("start_time", .floatv 0),
   ("stop_time", .floatv (1/10))]

/-- Transform metadata for an in-place scale. -/
def c5ipmMd : PyDict :=
  [("type", .ttype .InPlaceMultiplyTransform), ("coefficient", .floatv 2)]

/-- The parent Sound of the transform-store scenarios. -/
def c5parent : SoundObj := ⟨"p", 10, [.floatv 1, .floatv 2], [("samplerate", .floatv 10)], none⟩

/-- The derived Sound handed to the store path. -/
def c5derived : SoundObj := ⟨"d", 10, [.floatv 1], [("samplerate", .floatv 10)], none⟩

/-- A writable store already holding the parent's record. -/
def c5db : DictStore := ⟨[("p", [("samplerate", .floatv 10)])], false⟩

/-- Does any record of the store carry a `transform_children` entry? -/
def storesChildrenKey (db : DictStore) : Bool :=
  db.data.any fun r => dcontains r.2 "transform_children"

/-- A linear derivation chain `R → A → B → C` as the store records it. -/
def chainDb : DictStore :=
  ⟨[("R", [("transform_type", .str "InitTransform"), ("transform_parents", .list [])]),
    ("A", [("transform_type", .str "SliceTransform"),
           ("transform_parents", .list [.str "R"])]),
    ("B", [("transform_type", .str "PadTransform"),
           ("transform_parents", .list [.str "A"])]),
    ("C", [("transform_type", .str "FilterTransform"),
           ("transform_parents", .list [.str "B"])])], false⟩

/-- `D = combine(X, Y)` over two distinct roots. -/
def combDb : DictStore :=
  ⟨[("X", [("transform_parents", .list [])]),
    ("Y", [("transform_parents", .list [])]),
    ("D", [("transform_type", .str "AddTransform"),
           ("transform_parents", .list [.str "X", .str "Y"])])], false⟩

/-- A malformed store whose single node lists itself as parent. -/
def cycDb : DictStore := ⟨[("a", [("transform_parents", .list [.str "a"])])], false⟩

/-- The store of the unrelated-root scenario: root `a` with child `b`. -/
def c7db : DictStore :=
  ⟨[("a", [("transform_parents", .list [])]),
    ("b", [("transform_type", .str "SliceTransform"),
           ("transform_parents", .list [.str "a"])])], false⟩

/-- A manager over `c7db` as `SoundManager.__init__` leaves it. -/
def c7mgr : Mgr := ⟨c7db, none, 0⟩

/-- `get_roots` returns within some depth budget on this store/identity. -/
def rootsTerminates (store : DictStore) (id_ : String) : Prop :=
  ∃ fuel r, get_roots store fuel id_ = some r

/-- The parent identities of `a` as recorded in the store: the string
elements of the iterated `parents` metadata value. -/
def parentStrs (store : DictStore) (a : String) : List String :=
  match store.get_metadata a with
  | .err _ => []
  | .ok md =>
      match alookup md "parents" with
      | some v =>
          match iterVals v with
          | some ps =>
              ps.filterMap fun p => match p with | .str s => some s | _ => none
          | none => []
      | none => []

/-- An HDF5-backed store holding one group, writable. -/
def c10file : H5File := [("x", ⟨[("samplerate", .floatv 10)], []⟩)]

/-- The writable HDF5 store over `c10file`. -/
def c10rw : HStore := ⟨c10file, false⟩

/-- Values handled by the final (`assert a == b`) branch of the merge
policy: not dicts, arrays, lists or strings. -/
def mergeOther : PyVal → Bool
  | .intv _ => true
  | .floatv _ => true
  | .boolv _ => true
  | .nonev => true
  | .ttype _ => true
  | _ => false

/-- A store holding a single parentless node. -/
def soloDb : DictStore := ⟨[("solo", [("transform_parents", .list [])])], false⟩

/-! ## Theorems -/

/-- The `_check_annotations` call inside `soundNew`'s `annotate` always
succeeds on `{"samplerate": float}`. -/
theorem check_annotations_samplerate (q : ℚ) :
    check_annotations [("samplerate", .floatv q)] = .ok () := rfl

/-- C1: the claimed round trip — for every finite sequence of supported
transforms applied to a freshly created root Sound, `reconstruct` of the
final identity returns its in-memory buffer — fails on the code at every
instance of its own scenario.  Applying even a single transform (here:
`slice`) to a freshly created root raises `AttributeError`, because
`SoundTransform.store` reads `self.manager.reconstruct_flag`, an
attribute `SoundManager` never assigns; and for the empty transform
sequence, `reconstruct` of the freshly created root raises
`KeyError('type')`, because a fresh root has no metadata record.  No
instance of the claimed scenario completes, so no round trip holds. -/
theorem c1_roundtrip_code_bug :
    (soundSlice c1mgr c1root (1/10) (some (3/10))).2
        = .err (.attributeError "reconstruct_flag")
    ∧ smReconstruct 5 c1mgr c1root.id = some (c1mgr, .err (.keyError "type")) := by
  constructor <;> decide

/-- C2: the claim that `reconstruct` runs in a read-only reconstruction
mode and leaves the store unchanged fails on the code.  `reconstruct`
never sets any flag (the only flag the code mentions,
`reconstruct_flag`, is read but never assigned anywhere), and the
`Sound` instantiated for the materialised root inside `get_waveform`
writes its samplerate annotation into the store under a fresh identity:
on a store holding exactly one identity, `reconstruct` returns
successfully and the store ends up with two identities. -/
theorem c2_reconstruction_grows_store :
    c2mgr.database.list_ids = ["root"]
    ∧ (smReconstruct 5 c2mgr "root").map (fun p => (p.1.database.list_ids, p.2.isOk))
        = some (["root", "uuid-0"], true) := by
  constructor <;> decide

/-- C5: the claim that a completed transform-store operation leaves the
parent/child relation two-way (the derived identity appended to every
parent's children list) fails on the code: (i) with the shipped manager
the store path raises `AttributeError('reconstruct_flag')` before any
children update, and no record ever acquires a `transform_children`
entry; (ii) even granting the flag, the store path raises
`AttributeError('transformation')` — the re-wrapped derived Sound has no
such attribute — still before any parents or children write; (iii)
granting both, `InPlaceMultiplyTransform.store` writes
`parents = [p]` for the derived identity and then crashes inside
`_update_children`, whose `get_metadata(parent, "children")` call does
not match `DictStore.get_metadata`'s signature — so the parent's
children list never receives the new identity while the parents edge is
already persisted. -/
theorem c5_children_update_broken :
    ((stStore ⟨c5db, none, 0⟩ c5derived c5md (some c5parent) false).2
        = .err (.attributeError "reconstruct_flag")
      ∧ storesChildrenKey
          (stStore ⟨c5db, none, 0⟩ c5derived c5md (some c5parent) false).1.database = false)
    ∧ ((stStore ⟨c5db, some false, 0⟩ c5derived c5md (some c5parent) false).2
        = .err (.attributeError "transformation")
      ∧ storesChildrenKey
          (stStore ⟨c5db, some false, 0⟩ c5derived c5md (some c5parent) false).1.database = false)
    ∧ ((ipmStore ⟨c5db, some false, 0⟩ { c5derived with transformation := some [] }
          c5ipmMd (some c5parent) false).2
        = .err (.typeError "get_metadata() takes exactly 2 arguments")
      ∧ ((ipmStore ⟨c5db, some false, 0⟩ { c5derived with transformation := some [] }
            c5ipmMd (some c5parent) false).1.database.record "uuid-0").map
          (fun r => alookup r "transform_parents")
        = some (some (.list [.str "p"]))
      ∧ storesChildrenKey
          (ipmStore ⟨c5db, some false, 0⟩ { c5derived with transformation := some [] }
            c5ipmMd (some c5parent) false).1.database = false) := by
  refine ⟨⟨?_, ?_⟩, ⟨?_, ?_⟩, ?_, ?_, ?_⟩ <;> decide

/-- When every parent is a string whose recursion (one level deeper)
returns a root list, the parents loop returns their concatenation. -/
theorem rootsFold_concat (rec : String → Option (PRes (List String))) :
    ∀ (ps : List PyVal) (rss : List (List String)),
      List.Forall₂
        (fun p rs => ∃ pid, p = PyVal.str pid ∧ rec pid = some (.ok rs)) ps rss →
      rootsFold rec ps = some (.ok rss.flatten) := by
  intro ps rss hall
  induction hall with
  | nil => rfl
  | cons hpr _ ih =>
      obtain ⟨pid, rfl, hrec⟩ := hpr
      simp only [rootsFold, hrec, ih, List.flatten_cons]

/-- C3: `get_roots(id)` returns `[id]` whenever the stored node's
`parents` metadata is absent or empty, and otherwise returns the
concatenation of the recursively computed roots of every parent (both
proved for every store); on the linear chain `R → A → B → C` it returns
exactly `["R"]`, and on `D = combine(X, Y)` it returns `["X", "Y"]`
(so the set of returned roots is `{X, Y}`). -/
theorem c3_get_roots_spec :
    (∀ (store : DictStore) (id_ : String) (md : PyDict) (fuel : Nat),
        store.get_metadata id_ = .ok md →
        (alookup md "parents" = none ∨ alookup md "parents" = some (.list [])) →
        get_roots store (fuel + 1) id_ = some (.ok [id_]))
    ∧ (∀ (store : DictStore) (id_ : String) (md : PyDict) (ps : List PyVal)
          (fuel : Nat) (rss : List (List String)),
        store.get_metadata id_ = .ok md →
        alookup md "parents" = some (.list ps) →
        ps ≠ [] →
        List.Forall₂
          (fun p rs => ∃ pid, p = PyVal.str pid
            ∧ rootsGo store fuel pid = some (.ok rs)) ps rss →
        get_roots store (fuel + 1) id_ = some (.ok rss.flatten))
    ∧ get_roots chainDb 9 "C" = some (.ok ["R"])
    ∧ get_roots combDb 9 "D" = some (.ok ["X", "Y"]) := by
  refine ⟨?_, ?_, by decide, by decide⟩
  · intro store id_ md fuel h1 h2
    show rootsGo store (fuel + 1) id_ = some (.ok [id_])
    simp only [rootsGo, h1]
    rcases h2 with h | h <;> simp [h, pyLen]
  · intro store id_ md ps fuel rss h1 h2 hne hall
    obtain ⟨p, rest, rfl⟩ : ∃ p rest, ps = p :: rest := by
      cases ps with
      | nil => exact absurd rfl hne
      | cons a b => exact ⟨a, b, rfl⟩
    show rootsGo store (fuel + 1) id_ = some (.ok rss.flatten)
    simp only [rootsGo, h1, h2, pyLen, List.length_cons, iterVals]
    exact rootsFold_concat _ _ _ hall

/-- Witness for `c3_get_roots_spec`: the parentless chain root `R` for
the base case, and `D = combine(X, Y)` with its two parents for the
recursive case. -/
theorem c3_get_roots_spec_witness :
    (DictStore.get_metadata chainDb "R"
        = .ok [("type", .ttype .InitTransform), ("parents", .list [])]
      ∧ get_roots chainDb 1 "R" = some (.ok ["R"]))
    ∧ (DictStore.get_metadata combDb "D"
        = .ok [("type", .ttype .AddTransform),
               ("parents", .list [.str "X", .str "Y"])]
      ∧ rootsGo combDb 1 "X" = some (.ok ["X"])
      ∧ rootsGo combDb 1 "Y" = some (.ok ["Y"])
      ∧ get_roots combDb 2 "D" = some (.ok ["X", "Y"])) :=
  ⟨⟨by decide,
    c3_get_roots_spec.1 chainDb "R"
      [("type", .ttype .InitTransform), ("parents", .list [])] 0
      (by decide) (by decide)⟩,
   ⟨by decide, by decide, by decide,
    c3_get_roots_spec.2.1 combDb "D"
      [("type", .ttype .AddTransform), ("parents", .list [.str "X", .str "Y"])]
      [.str "X", .str "Y"] 1 [["X"], ["Y"]]
      (by decide) (by decide) (by decide)
      (List.Forall₂.cons ⟨"X", rfl, by decide⟩
        (List.Forall₂.cons ⟨"Y", rfl, by decide⟩ List.Forall₂.nil))⟩⟩

/-- C4: on a store whose `read_only` flag is set, every mutating call
(`store_annotations`, `store_metadata`, `store_data`) returns `False`
instead of raising — the `@writes` decorator returns before the body
runs — and the store value is returned unchanged, so every subsequent
`get_annotations` / `get_metadata` / `get_data` observes the same state;
this holds for the in-memory (`DictStore`) and the file-backed
(`HDF5Store`) backend alike. -/
theorem c4_read_only_writes_fail :
    (∀ (s : DictStore), s.read_only = true →
        ∀ (id_ : String) (kw : PyDict) (d : PyVal),
        s.store_annotations id_ kw = (s, .ok false)
        ∧ s.store_metadata id_ kw = (s, .ok false)
        ∧ s.store_data id_ d = (s, .ok false))
    ∧ (∀ (h : HStore), h.read_only = true →
        ∀ (id_ : String) (kw : PyDict) (d : PyVal) (ow : Bool),
        h.store_annotations id_ kw = (h, .ok false)
        ∧ h.store_metadata id_ kw = (h, .ok false)
        ∧ h.store_data id_ d ow = (h, .ok false)) := by
  constructor
  · intro s hs id_ kw d
    refine ⟨?_, ?_, ?_⟩ <;>
      simp [DictStore.store_annotations, DictStore.store_metadata,
        DictStore.store_data, hs]
  · intro h hro id_ kw d ow
    refine ⟨?_, ?_, ?_⟩ <;>
      simp [HStore.store_annotations, HStore.store_metadata, HStore.store_data, hro]

/-- Witness for `c4_read_only_writes_fail`: concrete read-only stores. -/
theorem c4_read_only_writes_fail_witness :
    DictStore.store_annotations ⟨[], true⟩ "x" [("k", .intv 1)] = (⟨[], true⟩, .ok false)
    ∧ HStore.store_data ⟨[], true⟩ "x" (.intv 1) true = (⟨[], true⟩, .ok false) :=
  ⟨(c4_read_only_writes_fail.1 ⟨[], true⟩ rfl "x" [("k", .intv 1)] (.intv 1)).1,
   ((c4_read_only_writes_fail.2 ⟨[], true⟩ rfl "x" [("k", .intv 1)] (.intv 1) true).2).2⟩

/-- C7 counterexample: on the stored chain `a → b`, asking
`reconstruct_individual("b", "zzz")` with the unrelated root `"zzz"`
does not raise: the call returns Python `None` (a soft failure) and
leaves the manager — store included — unchanged, refuting the claim that
an unrelated root is a hard failure that raises. -/
theorem c7_counterexample :
    get_roots c7db 5 "b" = some (.ok ["a"])
    ∧ smReconstructIndividual 5 c7mgr "b" "zzz" = some (c7mgr, .ok none) := by
  constructor <;> decide

/-- C7 amended: whenever `get_roots(id_)` returns a root list that does
not contain `root_id`, `reconstruct_individual(id_, root_id)` returns
`None` instead of raising, and nothing is written: the manager state
(store included) is returned unchanged. -/
theorem c7_unrelated_root_returns_none (mgr : Mgr) (id_ root_id : String)
    (fuel : Nat) (roots : List String)
    (h1 : rootsGo mgr.database fuel id_ = some (.ok roots))
    (h2 : root_id ∉ roots) :
    smReconstructIndividual (fuel + 1) mgr id_ root_id = some (mgr, .ok none) := by
  have hrun : run (fuel + 1) mgr (.rind id_ root_id) = some (mgr, .ok (.obj none)) := by
    simp only [run, h1]
    simp [h2]
  simp [smReconstructIndividual, hrun]

/-- Witness for `c7_unrelated_root_returns_none`. -/
theorem c7_unrelated_root_returns_none_witness :
    rootsGo c7mgr.database 4 "b" = some (.ok ["a"])
    ∧ "zzz" ∉ (["a"] : List String)
    ∧ smReconstructIndividual 5 c7mgr "b" "zzz" = some (c7mgr, .ok none) :=
  ⟨by decide, by decide,
   c7_unrelated_root_returns_none c7mgr "b" "zzz" 4 ["a"] (by decide) (by decide)⟩

/-- C8 counterexample: on the in-memory backend, looking up an identity
that was never stored raises `KeyError` (the source indexes
`self.data[id_]` directly) instead of returning an empty map. -/
theorem c8_counterexample :
    DictStore.get_annotations ⟨[("other", [])], false⟩ "ghost" = .err (.keyError "ghost")
    ∧ DictStore.get_metadata ⟨[("other", [])], false⟩ "ghost" = .err (.keyError "ghost") := by
  constructor <;> decide

/-- C8 amended: for an identity never stored, `get_annotations` and
`get_metadata` raise rather than returning an empty map on both shipped
backends — `KeyError` on the in-memory `DictStore`, `KeyError` on a
read-only `HDF5Store` and a failed group creation on a writable one
(its read handle is opened `"r"`); only the `PandasStore` variant
returns the empty map. -/
theorem c8_unknown_identity_raises :
    (∀ (s : DictStore) (id_ : String), s.record id_ = none →
        s.get_annotations id_ = .err (.keyError id_)
        ∧ s.get_metadata id_ = .err (.keyError id_))
    ∧ (∀ (h : HStore) (id_ : String), h.read_only = true → h5Find h.file id_ = none →
        (h.get_annotations id_).2 = .err (.keyError id_)
        ∧ (h.get_metadata id_).2 = .err (.keyError id_))
    ∧ (∀ (h : HStore) (id_ : String), h.read_only = false → h5Find h.file id_ = none →
        (h.get_annotations id_).2 = .err (.valueError "create_group: file opened read-only")
        ∧ (h.get_metadata id_).2 = .err (.valueError "create_group: file opened read-only"))
    ∧ (∀ (f : H5File) (id_ : String), h5Find f id_ = none →
        pandas_get_annotations f id_ = .ok [] ∧ pandas_get_metadata f id_ = .ok []) := by
  refine ⟨?_, ?_, ?_, ?_⟩
  · intro s id_ h
    exact ⟨by simp [DictStore.get_annotations, h], by simp [DictStore.get_metadata, h]⟩
  · intro h id_ hro hmiss
    constructor <;>
      simp [HStore.get_annotations, HStore.get_metadata, h5GetGroup, hro, hmiss]
  · intro h id_ hro hmiss
    constructor <;>
      simp [HStore.get_annotations, HStore.get_metadata, h5GetGroup, hro, hmiss]
  · intro f id_ hmiss
    exact ⟨by simp [pandas_get_annotations, hmiss], by simp [pandas_get_metadata, hmiss]⟩

/-- Witness for `c8_unknown_identity_raises`: the empty stores. -/
theorem c8_unknown_identity_raises_witness :
    DictStore.get_annotations ⟨[], false⟩ "g" = .err (.keyError "g")
    ∧ (HStore.get_annotations ⟨[], true⟩ "g").2 = .err (.keyError "g")
    ∧ (HStore.get_annotations ⟨[], false⟩ "g").2
        = .err (.valueError "create_group: file opened read-only")
    ∧ pandas_get_annotations [] "g" = .ok [] :=
  ⟨(c8_unknown_identity_raises.1 ⟨[], false⟩ "g" rfl).1,
   (c8_unknown_identity_raises.2.1 ⟨[], true⟩ "g" rfl rfl).1,
   (c8_unknown_identity_raises.2.2.1 ⟨[], false⟩ "g" rfl rfl).1,
   (c8_unknown_identity_raises.2.2.2 [] "g" rfl).1⟩

/-- When no key of `A` occurs in `B`, the merge loop keeps `A`
unchanged and the recursive merge never runs. -/
theorem mergeWalk_disjoint (rec : PyVal → PyVal → PRes PyVal) :
    ∀ (A B : PyDict), (∀ kv ∈ A, alookup B kv.1 = none) →
      mergeWalk rec A B = .ok A := by
  intro A
  induction A with
  | nil => intro B _; rfl
  | cons kv rest ih =>
      intro B h
      obtain ⟨k, va⟩ := kv
      have hk : alookup B k = none := h (k, va) (by simp)
      have hrest := ih B (fun kv hkv => h kv (by simp [hkv]))
      simp [mergeWalk, hk, hrest]

/-- Equal non-container values merge to the shared value. -/
theorem mergeGo_other_eq (n : Nat) (x : PyVal) (hx : mergeOther x = true) :
    mergeGo (n + 1) x x = .ok x := by
  cases x <;> simp_all [mergeGo, pyType, mergeOther]

/-- Unequal non-container values of the same type fail the
`assert a == b`. -/
theorem mergeGo_other_ne (n : Nat) (x y : PyVal) (hx : mergeOther x = true)
    (hy : mergeOther y = true) (hty : pyType x = pyType y) (hne : x ≠ y) :
    mergeGo (n + 1) x y = .err (.assertionError "unequal values") := by
  cases x <;> cases y <;> simp_all [mergeGo, pyType, mergeOther]

/-- Lists concatenate. -/
theorem mergeGo_list (n : Nat) (A B : List PyVal) :
    mergeGo (n + 1) (.list A) (.list B) = .ok (.list (A ++ B)) := by
  simp [mergeGo, pyType]

/-- Numeric arrays concatenate (`np.append`). -/
theorem mergeGo_arr (n : Nat) (A B : List PyVal) :
    mergeGo (n + 1) (.arr A) (.arr B) = .ok (.arr (A ++ B)) := by
  simp [mergeGo, pyType]

/-- Strings: unequal ones concatenate with `";"`, equal ones are
returned as-is. -/
theorem mergeGo_str (n : Nat) (sa sb : String) :
    mergeGo (n + 1) (.str sa) (.str sb)
      = .ok (.str (if sa = sb then sa else sa ++ ";" ++ sb)) := by
  by_cases h : sa = sb <;> simp [mergeGo, pyType, h]

/-- C9 counterexample: merging two *equal* strings returns the shared
string, not the claimed `";"`-concatenation:
`merge({"s":"x"}, {"s":"x"})` is `{"s":"x"}`, not `{"s":"x;x"}`. -/
theorem c9_counterexample :
    merge_annotations [("s", .str "x")] [("s", .str "x")] = .ok [("s", .str "x")]
    ∧ merge_annotations [("s", .str "x")] [("s", .str "x")]
        ≠ .ok [("s", .str "x;x")] := by
  constructor <;> decide

/-- C9 amended: the per-type merge policy, with the string rule refined
to the code's behaviour — strings concatenate with a `";"` separator
only when they differ, while equal strings merge to the shared string.
Lists and arrays concatenate
(`merge({"a":[1,2]}, {"a":[3]}) = {"a":[1,2,3]}`), nested dicts merge
key-wise recursively under the same rule, other types merge to the
shared value when equal (`merge({"n":5},{"n":5}) = {"n":5}`) and fail
when unequal (`merge({"n":5},{"n":6})` raises), and keys present in only
one input are kept as-is. -/
theorem c9_merge_policy :
    merge_annotations [("a", .list [.intv 1, .intv 2])] [("a", .list [.intv 3])]
        = .ok [("a", .list [.intv 1, .intv 2, .intv 3])]
    ∧ merge_annotations [("s", .str "x")] [("s", .str "y")] = .ok [("s", .str "x;y")]
    ∧ merge_annotations [("n", .intv 5)] [("n", .intv 5)] = .ok [("n", .intv 5)]
    ∧ merge_annotations [("n", .intv 5)] [("n", .intv 6)]
        = .err (.assertionError "unequal values")
    ∧ merge_annotations [("s", .str "x")] [("s", .str "x")] = .ok [("s", .str "x")]
    ∧ (∀ A B : List PyVal, merge_annotation (.list A) (.list B) = .ok (.list (A ++ B)))
    ∧ (∀ A B : List PyVal, merge_annotation (.arr A) (.arr B) = .ok (.arr (A ++ B)))
    ∧ (∀ sa sb : String, sa ≠ sb →
        merge_annotation (.str sa) (.str sb) = .ok (.str (sa ++ ";" ++ sb)))
    ∧ (∀ sa : String, merge_annotation (.str sa) (.str sa) = .ok (.str sa))
    ∧ (∀ x : PyVal, mergeOther x = true → merge_annotation x x = .ok x)
    ∧ (∀ x y : PyVal, mergeOther x = true → mergeOther y = true →
        pyType x = pyType y → x ≠ y →
        merge_annotation x y = .err (.assertionError "unequal values"))
    ∧ (∀ A B : PyDict, (∀ kv ∈ A, alookup B kv.1 = none) →
        (∀ kv ∈ B, dcontains A kv.1 = false) →
        merge_annotations A B = .ok (A ++ B))
    ∧ (∀ A B : PyDict, merge_annotation (.dict A) (.dict B)
        = match mergeWalk (fun x y => mergeGo (pyRecLimit - 1) x y) A B with
          | .err e => .err e
          | .ok m => .ok (.dict (m ++ B.filter fun kv => !(dcontains A kv.1))))
    ∧ (∀ (k : String) (va vb : PyVal),
        merge_annotations [(k, va)] [(k, vb)]
          = PRes.map (fun m => [(k, m)]) ( merge_annotation va vb))
    ∧ merge_annotations
        [("m", .dict [("a", .list [.intv 1]), ("x", .intv 7)])]
        [("m", .dict [("a", .list [.intv 2]), ("y", .intv 8)])]
        = .ok [("m", .dict [("a", .list [.intv 1, .intv 2]),
                            ("x", .intv 7), ("y", .intv 8)])] := by
  refine ⟨by decide, by decide, by decide, by decide, by decide,
    ?_, ?_, ?_, ?_, ?_, ?_, ?_, ?_, ?_, by decide⟩
  · intro A B; exact mergeGo_list 999 A B
  · intro A B; exact mergeGo_arr 999 A B
  · intro sa sb h
    have := mergeGo_str 999 sa sb
    simpa [ merge_annotation, pyRecLimit, h] using this
  · intro sa
    have := mergeGo_str 999 sa sa
    simpa [ merge_annotation, pyRecLimit] using this
  · intro x hx; exact mergeGo_other_eq 999 x hx
  · intro x y hx hy hty hne; exact mergeGo_other_ne 999 x y hx hy hty hne
  · intro A B hA hB
    have hwalk := mergeWalk_disjoint (fun x y => mergeGo pyRecLimit x y) A B hA
    have hfilter : (B.filter fun kv => !(dcontains A kv.1)) = B :=
      List.filter_eq_self.mpr (fun kv hkv => by simp [hB kv hkv])
    simp [merge_annotations, hwalk, hfilter]
  · intro A B; rfl
  · intro k va vb
    cases h : mergeGo pyRecLimit va vb with
    | ok m =>
        simp [merge_annotations, mergeWalk, alookup, dcontains, PRes.map,
          merge_annotation, h]
    | err e =>
        simp [merge_annotations, mergeWalk, alookup, dcontains, PRes.map,
          merge_annotation, h]

/-- Witness for `c9_merge_policy`: the unequal-string rule at `"x"`,
`"y"` and the disjoint-keys rule at concrete one-key dicts. -/
theorem c9_merge_policy_witness :
    ("x" : String) ≠ "y"
    ∧ merge_annotation (.str "x") (.str "y") = .ok (.str "x;y")
    ∧ merge_annotations [("a", .intv 1)] [("b", .intv 2)]
        = .ok [("a", .intv 1), ("b", .intv 2)] :=
  ⟨by decide, c9_merge_policy.2.2.2.2.2.2.2.1 "x" "y" (by decide),
   c9_merge_policy.2.2.2.2.2.2.2.2.2.2.2.1 [("a", .intv 1)] [("b", .intv 2)]
     (by decide) (by decide)⟩

/-- Replacing the group just appended for a previously missing name. -/
theorem h5Set_append (g g' : H5Group) :
    ∀ (f : H5File) (id_ : String), h5Find f id_ = none →
      h5Set (f ++ [(id_, g)]) id_ g' = f ++ [(id_, g')] := by
  intro f
  induction f with
  | nil => intro id_ _; simp [h5Set]
  | cons kv rest ih =>
      intro id_ hmiss
      obtain ⟨k, grp⟩ := kv
      have hk : ¬(k = id_) := by
        intro he
        simp [h5Find, he] at hmiss
      simp [h5Set, hk, ih id_ (by simpa [h5Find, hk] using hmiss)]

/-- C10 counterexample: on a writable (`read_only=False`) file-backed
store, `get_annotations` for an identity not present does *not* create
an empty group and return an empty map — the group creation is attempted
through a file handle opened `"r"`, which the HDF5 library refuses, so
the call raises and the file is unchanged. -/
theorem c10_counterexample :
    c10rw.read_only = false
    ∧ h5Find c10rw.file "ghost" = none
    ∧ c10rw.get_annotations "ghost"
        = (c10rw, .err (.valueError "create_group: file opened read-only")) := by
  refine ⟨rfl, by decide, by decide⟩

/-- C10 amended: on the file-backed store, `get_annotations` /
`get_metadata` / `get_data` for a missing identity never create a group:
with `read_only=False` the attempted `create_group` fails on the `"r"`
handle and the file is unchanged, and with `read_only=True` the calls
raise `KeyError`.  Only the write methods (which open the file `"a"`)
create a missing group as a side effect. -/
theorem c10_missing_identity_reads (h : HStore) (id_ : String)
    (hmiss : h5Find h.file id_ = none) :
    (h.read_only = false →
        h.get_annotations id_
            = (h, .err (.valueError "create_group: file opened read-only"))
        ∧ h.get_metadata id_
            = (h, .err (.valueError "create_group: file opened read-only"))
        ∧ h.get_data id_
            = (h, .err (.valueError "create_group: file opened read-only")))
    ∧ (h.read_only = true →
        h.get_annotations id_ = (h, .err (.keyError id_))
        ∧ h.get_metadata id_ = (h, .err (.keyError id_))
        ∧ h.get_data id_ = (h, .err (.keyError id_)))
    ∧ (h.read_only = false →
        h.store_annotations id_ []
            = ({ h with file := h.file ++ [(id_, ⟨[], []⟩)] }, .ok true)) := by
  obtain ⟨f, ro⟩ := h
  simp only at hmiss
  refine ⟨?_, ?_, ?_⟩
  · intro hro
    subst hro
    refine ⟨?_, ?_, ?_⟩ <;>
      simp [HStore.get_annotations, HStore.get_metadata, HStore.get_data,
        h5GetGroup, hmiss]
  · intro hro
    subst hro
    refine ⟨?_, ?_, ?_⟩ <;>
      simp [HStore.get_annotations, HStore.get_metadata, HStore.get_data,
        h5GetGroup, hmiss]
  · intro hro
    subst hro
    simp [HStore.store_annotations, h5GetGroup, hmiss, dupdate, h5Set_append]

/-- Witness for `c10_missing_identity_reads`: the concrete one-group
file, in both read-only modes. -/
theorem c10_missing_identity_reads_witness :
    h5Find c10rw.file "ghost" = none
    ∧ c10rw.get_metadata "ghost"
        = (c10rw, .err (.valueError "create_group: file opened read-only"))
    ∧ HStore.get_annotations ⟨c10file, true⟩ "ghost"
        = (⟨c10file, true⟩, .err (.keyError "ghost")) :=
  ⟨by decide,
   ((c10_missing_identity_reads c10rw "ghost" (by decide)).1 rfl).2.1,
   ((c10_missing_identity_reads ⟨c10file, true⟩ "ghost" (by decide)).2.1 rfl).1⟩

/-- A result of the parents loop survives replacing the recursion by a
pointwise-larger one. -/
theorem rootsFold_mono {rec rec' : String → Option (PRes (List String))}
    (hmono : ∀ pid r, rec pid = some r → rec' pid = some r) :
    ∀ (ps : List PyVal) (r : PRes (List String)),
      rootsFold rec ps = some r → rootsFold rec' ps = some r := by
  intro ps
  induction ps with
  | nil => intro r h; simpa [rootsFold] using h
  | cons p rest ih =>
      intro r h
      cases p
      case str pid =>
          simp only [rootsFold] at h ⊢
          cases hrec : rec pid with
          | none => simp only [hrec] at h; exact absurd h (by simp)
          | some r1 =>
              simp only [hrec] at h
              rw [hmono pid r1 hrec]
              cases r1 with
              | err e => exact h
              | ok rs =>
                  cases hfold : rootsFold rec rest with
                  | none => simp only [hfold] at h; exact absurd h (by simp)
                  | some r2 =>
                      simp only [hfold] at h
                      rw [ih r2 hfold]
                      exact h
      all_goals (simp only [rootsFold] at h ⊢; exact h)

/-- `get_roots` results survive one extra unit of depth budget. -/
theorem rootsGo_mono (store : DictStore) :
    ∀ (n : Nat) (id_ : String) (r : PRes (List String)),
      rootsGo store n id_ = some r → rootsGo store (n + 1) id_ = some r := by
  intro n
  induction n with
  | zero => intro id_ r h; simp [rootsGo] at h
  | succ n ih =>
      intro id_ r h
      simp only [rootsGo] at h ⊢
      cases hm : store.get_metadata id_ with
      | err e => simp only [hm] at h ⊢; exact h
      | ok md =>
          simp only [hm] at h ⊢
          cases hp : alookup md "parents" with
          | none => simp only [hp] at h ⊢; exact h
          | some v =>
              simp only [hp] at h ⊢
              cases hl : pyLen v with
              | none => simp only [hl] at h ⊢; exact h
              | some len =>
                  simp only [hl] at h ⊢
                  cases len with
                  | zero => exact h
                  | succ m =>
                      cases hiv : iterVals v with
                      | none => simp only [hiv] at h ⊢; exact h
                      | some ps =>
                          simp only [hiv] at h ⊢
                          exact rootsFold_mono (fun pid r hr => ih pid r hr) ps r h

/-- `get_roots` results survive any increase of the depth budget. -/
theorem rootsGo_mono_le (store : DictStore) {n m : Nat} (hnm : n ≤ m) :
    ∀ (id_ : String) (r : PRes (List String)),
      rootsGo store n id_ = some r → rootsGo store m id_ = some r := by
  induction hnm with
  | refl => intro id_ r h; exact h
  | step _ ih => intro id_ r h; exact rootsGo_mono store _ id_ r (ih id_ r h)

/-- On the self-parenting store, `get_roots("a")` exceeds every depth
budget: the naive recursion re-visits the node forever. -/
theorem cycDb_diverges : ∀ n, rootsGo cycDb n "a" = none := by
  intro n
  induction n with
  | zero => rfl
  | succ n ih =>
      have hstep : rootsGo cycDb (n + 1) "a"
          = rootsFold (fun pid => rootsGo cycDb n pid) [.str "a"] := rfl
      rw [hstep]
      simp [rootsFold, ih]

/-- C6 counterexample: on the malformed store whose node `a` lists
itself as parent, `get_roots("a")` never returns at all — for every
depth budget the recursion exhausts it (CPython: `RecursionError`), so
in particular no `CorruptGraph` failure is ever produced. -/
theorem c6_counterexample : ¬ rootsTerminates cycDb "a" := by
  rintro ⟨fuel, r, h⟩
  simp [get_roots, cycDb_diverges fuel] at h

/-- The parents loop returns once every string element's recursion
returns. -/
theorem rootsFold_total (rec : String → Option (PRes (List String))) :
    ∀ (ps : List PyVal),
      (∀ pid, PyVal.str pid ∈ ps → ∃ r, rec pid = some r) →
      ∃ r, rootsFold rec ps = some r := by
  intro ps
  induction ps with
  | nil => intro _; exact ⟨.ok [], rfl⟩
  | cons p rest ih =>
      intro hp
      cases p
      case str pid =>
          obtain ⟨r1, h1⟩ := hp pid (by simp)
          obtain ⟨r2, h2⟩ := ih (fun q hq => hp q (by simp [hq]))
          cases r1 with
          | err e => exact ⟨.err e, by simp [rootsFold, h1]⟩
          | ok rs =>
              cases r2 with
              | err e => exact ⟨.err e, by simp [rootsFold, h1, h2]⟩
              | ok rs2 => exact ⟨.ok (rs ++ rs2), by simp [rootsFold, h1, h2]⟩
      all_goals exact ⟨.err (.keyError "non-string identity"), rfl⟩

/-- A string element of the iterated `parents` value is a recorded
parent identity. -/
theorem mem_parentStrs (store : DictStore) (id_ : String) (md : PyDict) (v : PyVal)
    (ps : List PyVal) (pid : String)
    (hm : store.get_metadata id_ = .ok md) (hp : alookup md "parents" = some v)
    (hiv : iterVals v = some ps) (hmem : PyVal.str pid ∈ ps) :
    pid ∈ parentStrs store id_ := by
  simp only [parentStrs, hm, hp, hiv]
  exact List.mem_filterMap.mpr ⟨.str pid, hmem, rfl⟩

/-- `get_roots` returns within budget `rank id + 1` whenever a rank
function decreases along recorded parents. -/
theorem rootsGo_terminates_of_rank (store : DictStore) (rank : String → Nat)
    (hrank : ∀ a pid, pid ∈ parentStrs store a → rank pid < rank a) :
    ∀ id_, ∃ r, rootsGo store (rank id_ + 1) id_ = some r := by
  have main : ∀ (k : Nat) (id_ : String), rank id_ < k →
      ∃ r, rootsGo store (rank id_ + 1) id_ = some r := by
    intro k
    induction k with
    | zero => intro id_ h; exact absurd h (Nat.not_lt_zero _)
    | succ k ih =>
        intro id_ hlt
        cases hm : store.get_metadata id_ with
        | err e => exact ⟨.err e, by simp [rootsGo, hm]⟩
        | ok md =>
            cases hp : alookup md "parents" with
            | none => exact ⟨.ok [id_], by simp [rootsGo, hm, hp]⟩
            | some v =>
                cases hl : pyLen v with
                | none =>
                    exact ⟨.err (.typeError "len() of unsized object"),
                      by simp [rootsGo, hm, hp, hl]⟩
                | some len =>
                    cases len with
                    | zero => exact ⟨.ok [id_], by simp [rootsGo, hm, hp, hl]⟩
                    | succ m =>
                        cases hiv : iterVals v with
                        | none =>
                            exact ⟨.err (.typeError "not iterable"),
                              by simp [rootsGo, hm, hp, hl, hiv]⟩
                        | some ps =>
                            have hfold : ∃ r,
                                rootsFold (fun pid => rootsGo store (rank id_) pid) ps
                                  = some r := by
                              apply rootsFold_total
                              intro pid hmem
                              have hpar : pid ∈ parentStrs store id_ :=
                                mem_parentStrs store id_ md v ps pid hm hp hiv hmem
                              have hr : rank pid < rank id_ := hrank id_ pid hpar
                              obtain ⟨r, hrec⟩ := ih pid (by omega)
                              exact ⟨r, rootsGo_mono_le store (by omega) pid r hrec⟩
                            obtain ⟨r, hr⟩ := hfold
                            refine ⟨r, ?_⟩
                            simp only [rootsGo, hm, hp, hl, hiv]
                            exact hr
  intro id_
  exact main (rank id_ + 1) id_ (by omega)

/-- C6 amended: `get_roots` terminates on every acyclic stored graph —
any graph admitting a rank function that decreases along recorded
parents — but it carries no re-visitation guard: on a malformed graph
with a parent cycle (here a node listing itself as parent) the recursion
exhausts every depth budget without ever producing a result, and no
`CorruptGraph` error exists anywhere in the code. -/
theorem c6_no_cycle_guard :
    (∀ (store : DictStore) (rank : String → Nat),
        (∀ a pid, pid ∈ parentStrs store a → rank pid < rank a) →
        ∀ id_, rootsTerminates store id_)
    ∧ (∀ fuel, get_roots cycDb fuel "a" = none) := by
  constructor
  · intro store rank hrank id_
    obtain ⟨r, hr⟩ := rootsGo_terminates_of_rank store rank hrank id_
    exact ⟨rank id_ + 1, r, hr⟩
  · intro fuel
    simp [get_roots, cycDb_diverges fuel]

/-- Every identity has an empty recorded-parents list in `soloDb`. -/
theorem soloDb_parentStrs (a : String) : parentStrs soloDb a = [] := by
  by_cases h : a = "solo"
  · subst h; decide
  · simp [parentStrs, DictStore.get_metadata, DictStore.record, dsRecord, soloDb,
      Ne.symm h]

/-- Witness for `c6_no_cycle_guard`: the one-node parentless store with
the constant rank function. -/
theorem c6_no_cycle_guard_witness :
    rootsTerminates soloDb "solo"
    ∧ get_roots soloDb 1 "solo" = some (.ok ["solo"]) :=
  ⟨c6_no_cycle_guard.1 soloDb (fun _ => 0)
      (fun a pid hmem =>
        absurd (soloDb_parentStrs a ▸ hmem) (List.not_mem_nil pid)) "solo",
   by decide⟩

end Neosound
